import Mathlib

/-! Verification of the trigger evaluation engine of the crypto-dashboard
repository: src/triggers.py together with its sink collaborators
src/telegram_utils.py and src/journal.py, shallowly embedded in Lean 4.

Modelling conventions:
* Python floats are modelled as rationals; instants are seconds since the
  Unix epoch (as returned by time.time and datetime.now), also rationals.
* Python string formatting of numbers (f-string specifiers such as .1f) is
  abstracted by toString on the rational; everything else about the message
  strings is kept verbatim.
* The mutable fields of TriggerEngine (last_allocation, last_trigger_time)
  are threaded explicitly; the dict last_trigger_time is an association
  list with the most recent binding first.
* Exceptions are modelled with Except; since Python side effects performed
  before an exception persist, the error value carries the state reached
  at the raise point. -/

/-- One element of metrics["macro_events"]. The source parses event["date"]
with datetime.strptime inside a try block; the model carries the parse
result directly: some t is a successful parse to instant t, none means the
date field fails to parse (strptime raises). -/
structure MacroEvent where
  name : String
  date : Option ℚ
deriving Repr, DecidableEq

/-- Metric snapshot: the dict handed to TriggerEngine. Every scalar field
is optional because the source reads it with metrics.get(key, default). -/
structure Metrics where
  btc_dominance : Option ℚ := none
  alt_season_index : Option ℚ := none
  btc_funding_rate : Option ℚ := none
  hype_funding_rate : Option ℚ := none
  stablecoin_delta : Option ℚ := none
  macro_events : List MacroEvent := []
deriving Repr, DecidableEq

/-- Mutable state of TriggerEngine: __init__ sets last_allocation = None and
last_trigger_time = {}. -/
structure EngineState where
  last_allocation : Option (ℚ × ℚ × ℚ)
  last_trigger_time : List (String × ℚ)
deriving Repr, DecidableEq

/-- TriggerEngine.__init__ also fixes self.cooldown_hours = 12. -/
def cooldown_hours : ℚ := 12

/-- The state of a freshly constructed TriggerEngine. -/
def initialEngine : EngineState := ⟨none, []⟩

/-- Python self.last_trigger_time.get(name, 0): the recorded last-fired
instant for name, defaulting to 0 when none is recorded. -/
def getTime (times : List (String × ℚ)) (name : String) : ℚ :=
  match times.find? (fun p => p.1 == name) with
  | some p => p.2
  | none => 0

/-- The recorded last-fired instant for a trigger name, when one exists
(distinguishes a missing dict key from a recorded value). -/
def recordedTime (times : List (String × ℚ)) (name : String) : Option ℚ :=
  (times.find? (fun p => p.1 == name)).map (fun p => p.2)

/-- TriggerEngine._should_trigger: (now - last_time) >= cooldown_hours * 3600
where last_time = self.last_trigger_time.get(trigger_name, 0). -/
def shouldTrigger (times : List (String × ℚ)) (now : ℚ) (name : String) : Bool :=
  decide (now - getTime times name ≥ cooldown_hours * 3600)

/-- TriggerEngine._record_trigger: self.last_trigger_time[trigger_name] =
time.time(), an unconditional overwrite of the binding for that name. -/
def recordTrigger (times : List (String × ℚ)) (name : String) (now : ℚ) :
    List (String × ℚ) :=
  (name, now) :: times

/-- TriggerEngine.calculate_allocation, verbatim from the source: defaults
60 and 50, then the three bands in priority order. -/
def calculate_allocation (metrics : Metrics) : ℚ × ℚ × ℚ :=
  let btc_dom := metrics.btc_dominance.getD 60
  let alt_index := metrics.alt_season_index.getD 50
  if btc_dom ≥ 61 ∧ alt_index < 50 then (0.70, 0.25, 0.05)
  else if btc_dom < 60 ∧ alt_index ≥ 50 then (0.45, 0.50, 0.05)
  else (0.60, 0.35, 0.05)

/-- Failure behaviour of the external collaborators during one cycle:
whether the Telegram bot is configured (TG_TOKEN and TG_CHAT both set),
whether the HTTP post to Telegram raises, and whether the journal file
write raises. -/
structure World where
  telegramConfigured : Bool
  telegramPostRaises : Bool
  journalRaises : Bool
deriving Repr, DecidableEq

/-- One row appended by journal.append_journal_entry (the timestamp column
is a function of the clock and is omitted from the model). -/
structure JournalEntry where
  asset : String
  change_pct : ℚ
  reason : String
  emotion : String
deriving Repr, DecidableEq

/-- Side effects accumulated during a cycle: the texts handed to the
Notification Sink and the rows appended to the Journal Sink, most recent
first. -/
structure Effects where
  notifications : List String
  journal : List JournalEntry
deriving Repr, DecidableEq

/-- Engine state together with the accumulated side effects. -/
structure Sys where
  engine : EngineState
  fx : Effects
deriving Repr, DecidableEq

/-- Fresh engine, no side effects yet. -/
def initialSys : Sys := ⟨initialEngine, ⟨[], []⟩⟩

/-- The requests.post call inside telegram_utils.send_telegram_message,
which may raise a network exception. -/
def telegramPost (w : World) : Except String Unit :=
  if w.telegramPostRaises then .error "network error" else .ok ()

/-- telegram_utils.send_telegram_message: records the text handed to the
sink, returns False without posting when the bot is unconfigured, and
otherwise posts, catching any exception from the post with its own
try/except — so it never raises to its caller. -/
def send_telegram_message (w : World) (text : String) (fx : Effects) :
    Bool × Effects :=
  let fx' : Effects := ⟨text :: fx.notifications, fx.journal⟩
  if ¬ w.telegramConfigured then (false, fx')
  else
    match telegramPost w with
    | .ok _ => (true, fx')
    | .error _ => (false, fx')

/-- journal.append_journal_entry: opens and writes the CSV file, which can
raise an OSError; nothing in the journal module catches it, so it
surfaces to the caller as an exception. -/
def append_journal_entry (w : World) (e : JournalEntry) (fx : Effects) :
    Except String Effects :=
  if w.journalRaises then .error "OSError" else .ok ⟨fx.notifications, e :: fx.journal⟩

/-- Common body of a firing trigger in the source, in source order: record
the cooldown, then call the Notification Sink, then the Journal Sink. A
journal exception propagates carrying the state reached so far: the
cooldown is already recorded and the notification already sent. -/
def fireAction (w : World) (now : ℚ) (key msg : String) (entry : JournalEntry)
    (s : Sys) : Except (String × Sys) Sys :=
  let eng : EngineState :=
    ⟨s.engine.last_allocation, recordTrigger s.engine.last_trigger_time key now⟩
  let fx1 := (send_telegram_message w msg s.fx).2
  match append_journal_entry w entry fx1 with
  | .ok fx2 => .ok ⟨eng, fx2⟩
  | .error err => .error (err, ⟨eng, fx1⟩)

/-- Alert text of check_rotation_triggers (number formatting abstracted). -/
def rotationMessage (btc_dom alt_index : ℚ) : String :=
  "🔄 *BTC.D < 60% & alt momentum ↑* – start rotation.\nBTC Dom: " ++
    toString btc_dom ++ "% | Alt Index: " ++ toString alt_index

/-- TriggerEngine.check_rotation_triggers. -/
def check_rotation_triggers (w : World) (now : ℚ) (m : Metrics) (s : Sys) :
    Except (String × Sys) (Option String × Sys) :=
  let btc_dom := m.btc_dominance.getD 60
  let alt_index := m.alt_season_index.getD 50
  if btc_dom < 60 ∧ alt_index > 50 ∧
      shouldTrigger s.engine.last_trigger_time now "rotation" = true then
    (fireAction w now "rotation" (rotationMessage btc_dom alt_index)
        ⟨"ROTATION", -10, "BTC.D <60, rotate", "😐"⟩ s).map
      (fun s' => (some (rotationMessage btc_dom alt_index), s'))
  else .ok (none, s)

/-- Alert text of the full-alt-season branch. -/
def altFullMessage (alt_index : ℚ) : String :=
  "🚀 *Full alt-season (≥ 75)*\nAlt Index: " ++ toString alt_index

/-- Alert text of the back-to-BTC-dominance branch. -/
def altEndMessage (alt_index : ℚ) : String :=
  "📉 *Back to BTC dominance*\nAlt Index: " ++ toString alt_index

/-- TriggerEngine.check_alt_season_triggers: an if/elif on the same
metric. -/
def check_alt_season_triggers (w : World) (now : ℚ) (m : Metrics) (s : Sys) :
    Except (String × Sys) (Option String × Sys) :=
  let alt_index := m.alt_season_index.getD 50
  if alt_index ≥ 75 ∧
      shouldTrigger s.engine.last_trigger_time now "alt_season_full" = true then
    (fireAction w now "alt_season_full" (altFullMessage alt_index)
        ⟨"ALTS", 25, "Full alt-season", "🚀"⟩ s).map
      (fun s' => (some (altFullMessage alt_index), s'))
  else if alt_index ≤ 25 ∧
      shouldTrigger s.engine.last_trigger_time now "alt_season_end" = true then
    (fireAction w now "alt_season_end" (altEndMessage alt_index)
        ⟨"BTC", 20, "Back to BTC dominance", "📉"⟩ s).map
      (fun s' => (some (altEndMessage alt_index), s'))
  else .ok (none, s)

/-- Alert text of the crowded-BTC-leverage branch. -/
def fundingBtcMessage (btc_funding : ℚ) : String :=
  "⚠️ *Crowded leverage: BTC*\nFunding: " ++ toString btc_funding ++ "%/8h"

/-- Alert text of the crowded-HYPE-leverage branch. -/
def fundingHypeMessage (hype_funding : ℚ) : String :=
  "⚠️ *Crowded leverage: HYPE*\nFunding: " ++ toString hype_funding ++ "%/8h"

/-- TriggerEngine.check_funding_triggers: the BTC and HYPE blocks run in
sequence, each appending its message; the return is the messages joined
with "; ", or None when the list is empty. -/
def check_funding_triggers (w : World) (now : ℚ) (m : Metrics) (s : Sys) :
    Except (String × Sys) (Option String × Sys) :=
  let btc_funding := m.btc_funding_rate.getD 0
  let hype_funding := m.hype_funding_rate.getD 0
  let step1 : Except (String × Sys) (List String × Sys) :=
    if |btc_funding| ≥ 0.10 ∧
        shouldTrigger s.engine.last_trigger_time now "funding_btc" = true then
      (fireAction w now "funding_btc" (fundingBtcMessage btc_funding)
          ⟨"BTC", -20, "Crowded leverage: BTC. Funding " ++ toString btc_funding ++ "%",
            "⚠️"⟩ s).map
        (fun s1 => ([fundingBtcMessage btc_funding], s1))
    else .ok ([], s)
  match step1 with
  | .error e => .error e
  | .ok (msgs, s1) =>
    let step2 : Except (String × Sys) (List String × Sys) :=
      if |hype_funding| ≥ 0.10 ∧
          shouldTrigger s1.engine.last_trigger_time now "funding_hype" = true then
        (fireAction w now "funding_hype" (fundingHypeMessage hype_funding)
            ⟨"HYPE", -20,
              "Crowded leverage: HYPE. Funding " ++ toString hype_funding ++ "%",
              "⚠️"⟩ s1).map
          (fun s2 => (msgs ++ [fundingHypeMessage hype_funding], s2))
      else .ok (msgs, s1)
    step2.map
      (fun p => (if p.1.isEmpty then none else some (String.intercalate "; " p.1), p.2))

/-- Alert text of the stablecoin-issuance trigger. -/
def stablecoinMessage (stable_delta : ℚ) : String :=
  "💰 *New stable-coin issuance – ammo loaded*\n7d Change: $" ++
    toString (stable_delta / 1000000000) ++ "B"

/-- TriggerEngine.check_stablecoin_triggers. -/
def check_stablecoin_triggers (w : World) (now : ℚ) (m : Metrics) (s : Sys) :
    Except (String × Sys) (Option String × Sys) :=
  let stable_delta := m.stablecoin_delta.getD 0
  if stable_delta ≥ 1000000000 ∧
      shouldTrigger s.engine.last_trigger_time now "stablecoin_issuance" = true then
    (fireAction w now "stablecoin_issuance" (stablecoinMessage stable_delta)
        ⟨"STABLES", 10, "New stable-coin issuance", "💰"⟩ s).map
      (fun s' => (some (stablecoinMessage stable_delta), s'))
  else .ok (none, s)

/-- Cooldown key synthesized for a macro event from its name. -/
def macroKey (e : MacroEvent) : String := "macro_" ++ e.name

/-- Alert text of the macro trigger (date formatting abstracted). -/
def macroMessage (e : MacroEvent) : String :=
  "📅 *Macro in play: " ++ e.name ++ "*\nDate: " ++
    (match e.date with
     | some d => toString d
     | none => "")

/-- Loop body of TriggerEngine.check_macro_triggers. Each iteration runs
inside a try/except that continues with the next event: a date that fails
to parse is skipped, and an exception from the Journal Sink after a fire
is also caught — the cooldown record and the notification persist and the
loop moves on. The loop returns on the first completed fire. -/
def macroLoop (w : World) (now : ℚ) : List MacroEvent → Sys → Option String × Sys
  | [], s => (none, s)
  | e :: rest, s =>
    match e.date with
    | none => macroLoop w now rest s
    | some d =>
      if |(d - now) / 3600| ≤ 12 ∧
          shouldTrigger s.engine.last_trigger_time now (macroKey e) = true then
        match fireAction w now (macroKey e) (macroMessage e)
            ⟨"CASH", 0, "Macro in play: " ++ e.name, "📅"⟩ s with
        | .ok s' => (some (macroMessage e), s')
        | .error es => macroLoop w now rest es.2
      else macroLoop w now rest s

/-- TriggerEngine.check_macro_triggers: the loop never raises, every
per-event exception being caught by the in-loop try/except. -/
def check_macro_triggers (w : World) (now : ℚ) (m : Metrics) (s : Sys) :
    Except (String × Sys) (Option String × Sys) :=
  .ok (macroLoop w now m.macro_events s)

/-- The result dict of check_all_triggers; the Python key "macro" is the
field macroAlert here. -/
structure TriggerResults where
  rotation : Option String
  alt_season : Option String
  funding : Option String
  stablecoin : Option String
  macroAlert : Option String
  allocation : ℚ × ℚ × ℚ
deriving Repr, DecidableEq

/-- Alert text of the allocation update (percentage formatting
abstracted). -/
def allocationMessage (a : ℚ × ℚ × ℚ) : String :=
  "📊 *Allocation Update*\nBTC: " ++ toString a.1 ++ " | ALTS: " ++
    toString a.2.1 ++ " | STABLES: " ++ toString a.2.2

/-- Lines 143-154 of check_all_triggers: compute the allocation, compare
with the stored one (Python truthiness: None is falsy, a 3-tuple always
truthy), emit the update notification and journal row when a prior
allocation exists and differs, then store the new allocation. If the
Journal Sink raises, the store is never reached. -/
def allocationStep (w : World) (m : Metrics) (s : Sys) :
    Except (String × Sys) ((ℚ × ℚ × ℚ) × Sys) :=
  let current := calculate_allocation m
  match s.engine.last_allocation with
  | none => .ok (current, ⟨⟨some current, s.engine.last_trigger_time⟩, s.fx⟩)
  | some old =>
    if old ≠ current then
      let fx1 := (send_telegram_message w (allocationMessage current) s.fx).2
      match append_journal_entry w
          ⟨"ALLOCATION", (current.1 - old.1) * 100, "Auto allocation update", "📊"⟩
          fx1 with
      | .ok fx2 => .ok (current, ⟨⟨some current, s.engine.last_trigger_time⟩, fx2⟩)
      | .error err => .error (err, ⟨s.engine, fx1⟩)
    else .ok (current, ⟨⟨some current, s.engine.last_trigger_time⟩, s.fx⟩)

/-- The five evaluator calls of check_all_triggers, in source order,
threading the engine state; an uncaught exception from any evaluator
aborts the remaining ones. -/
def runCategories (w : World) (now : ℚ) (m : Metrics) (s : Sys) :
    Except (String × Sys)
      ((Option String × Option String × Option String × Option String ×
        Option String) × Sys) :=
  match check_rotation_triggers w now m s with
  | .error e => .error e
  | .ok (r1, s1) =>
    match check_alt_season_triggers w now m s1 with
    | .error e => .error e
    | .ok (r2, s2) =>
      match check_funding_triggers w now m s2 with
      | .error e => .error e
      | .ok (r3, s3) =>
        match check_stablecoin_triggers w now m s3 with
        | .error e => .error e
        | .ok (r4, s4) =>
          match check_macro_triggers w now m s4 with
          | .error e => .error e
          | .ok (r5, s5) => .ok ((r1, r2, r3, r4, r5), s5)

/-- TriggerEngine.check_all_triggers: the five evaluators, then the
allocation block. -/
def check_all_triggers (w : World) (now : ℚ) (m : Metrics) (s : Sys) :
    Except (String × Sys) (TriggerResults × Sys) :=
  match runCategories w now m s with
  | .error e => .error e
  | .ok ((r1, r2, r3, r4, r5), s5) =>
    match allocationStep w m s5 with
    | .error e => .error e
    | .ok (current, s6) => .ok (⟨r1, r2, r3, r4, r5, current⟩, s6)

/-- Date window test of the macro trigger: the event date parses and lies
within 12 hours of now. -/
def macroWindow (now : ℚ) (e : MacroEvent) : Bool :=
  match e.date with
  | none => false
  | some d => decide (|(d - now) / 3600| ≤ 12)

/-- An event qualifies when its date window holds and its synthesized
cooldown key is eligible. -/
def macroQualifies (times : List (String × ℚ)) (now : ℚ) (e : MacroEvent) : Bool :=
  macroWindow now e && shouldTrigger times now (macroKey e)

theorem getTime_eq_recordedTime (l : List (String × ℚ)) (n : String) :
    getTime l n = (recordedTime l n).getD 0 := by
  unfold getTime recordedTime
  cases l.find? (fun p => p.1 == n) <;> rfl

theorem recordedTime_cons (k : String) (t : ℚ) (l : List (String × ℚ)) (n : String) :
    recordedTime ((k, t) :: l) n = if k = n then some t else recordedTime l n := by
  by_cases h : k = n
  · subst h
    simp [recordedTime, List.find?_cons_of_pos]
  · have hb : ((k, t).1 == n) = false := by
      simpa using h
    simp [recordedTime, List.find?_cons_of_neg, hb, h]

theorem getTime_cons (k : String) (t : ℚ) (l : List (String × ℚ)) (n : String) :
    getTime ((k, t) :: l) n = if k = n then t else getTime l n := by
  rw [getTime_eq_recordedTime, recordedTime_cons]
  by_cases h : k = n <;> simp [h, getTime_eq_recordedTime]

theorem send_telegram_message_fx (w : World) (text : String) (fx : Effects) :
    (send_telegram_message w text fx).2 = ⟨text :: fx.notifications, fx.journal⟩ := by
  unfold send_telegram_message
  cases hc : w.telegramConfigured <;> cases hp : telegramPost w <;> simp [hc, hp]

theorem fireAction_ok (w : World) (now : ℚ) (key msg : String) (entry : JournalEntry)
    (s : Sys) (hj : w.journalRaises = false) :
    fireAction w now key msg entry s =
      .ok ⟨⟨s.engine.last_allocation, (key, now) :: s.engine.last_trigger_time⟩,
           ⟨msg :: s.fx.notifications, entry :: s.fx.journal⟩⟩ := by
  unfold fireAction
  rw [send_telegram_message_fx]
  simp [append_journal_entry, hj, recordTrigger]

theorem fireAction_err (w : World) (now : ℚ) (key msg : String) (entry : JournalEntry)
    (s : Sys) (hj : w.journalRaises = true) :
    fireAction w now key msg entry s =
      .error ("OSError",
        ⟨⟨s.engine.last_allocation, (key, now) :: s.engine.last_trigger_time⟩,
         ⟨msg :: s.fx.notifications, s.fx.journal⟩⟩) := by
  unfold fireAction
  rw [send_telegram_message_fx]
  simp [append_journal_entry, hj, recordTrigger]

theorem shouldTrigger_cons_ne (k : String) (t : ℚ) (l : List (String × ℚ))
    (now : ℚ) (n : String) (h : k ≠ n) :
    shouldTrigger ((k, t) :: l) now n = shouldTrigger l now n := by
  unfold shouldTrigger
  rw [getTime_cons, if_neg h]

theorem intercalate_single (sep a : String) : String.intercalate sep [a] = a := by
  simp [String.intercalate, String.intercalate.go]

theorem intercalate_pair (sep a b : String) :
    String.intercalate sep [a, b] = a ++ sep ++ b := by
  simp [String.intercalate, String.intercalate.go]

theorem check_rotation_spec (w : World) (now : ℚ) (m : Metrics) (s : Sys)
    (hj : w.journalRaises = false) :
    check_rotation_triggers w now m s =
      (if m.btc_dominance.getD 60 < 60 ∧ m.alt_season_index.getD 50 > 50 ∧
          shouldTrigger s.engine.last_trigger_time now "rotation" = true then
        .ok (some (rotationMessage (m.btc_dominance.getD 60) (m.alt_season_index.getD 50)),
          ⟨⟨s.engine.last_allocation, ("rotation", now) :: s.engine.last_trigger_time⟩,
           ⟨rotationMessage (m.btc_dominance.getD 60) (m.alt_season_index.getD 50) ::
              s.fx.notifications,
            ⟨"ROTATION", -10, "BTC.D <60, rotate", "😐"⟩ :: s.fx.journal⟩⟩)
      else .ok (none, s)) := by
  simp only [check_rotation_triggers]
  split_ifs with h
  · rw [fireAction_ok _ _ _ _ _ _ hj]
    rfl
  · rfl

theorem check_alt_season_spec (w : World) (now : ℚ) (m : Metrics) (s : Sys)
    (hj : w.journalRaises = false) :
    check_alt_season_triggers w now m s =
      (if m.alt_season_index.getD 50 ≥ 75 ∧
          shouldTrigger s.engine.last_trigger_time now "alt_season_full" = true then
        .ok (some (altFullMessage (m.alt_season_index.getD 50)),
          ⟨⟨s.engine.last_allocation, ("alt_season_full", now) :: s.engine.last_trigger_time⟩,
           ⟨altFullMessage (m.alt_season_index.getD 50) :: s.fx.notifications,
            ⟨"ALTS", 25, "Full alt-season", "🚀"⟩ :: s.fx.journal⟩⟩)
      else if m.alt_season_index.getD 50 ≤ 25 ∧
          shouldTrigger s.engine.last_trigger_time now "alt_season_end" = true then
        .ok (some (altEndMessage (m.alt_season_index.getD 50)),
          ⟨⟨s.engine.last_allocation, ("alt_season_end", now) :: s.engine.last_trigger_time⟩,
           ⟨altEndMessage (m.alt_season_index.getD 50) :: s.fx.notifications,
            ⟨"BTC", 20, "Back to BTC dominance", "📉"⟩ :: s.fx.journal⟩⟩)
      else .ok (none, s)) := by
  simp only [check_alt_season_triggers]
  split_ifs with h1 h2
  · rw [fireAction_ok _ _ _ _ _ _ hj]
    rfl
  · rw [fireAction_ok _ _ _ _ _ _ hj]
    rfl
  · rfl

theorem check_funding_spec (w : World) (now : ℚ) (m : Metrics) (s : Sys)
    (hj : w.journalRaises = false) :
    check_funding_triggers w now m s =
      (if |m.btc_funding_rate.getD 0| ≥ 0.10 ∧
          shouldTrigger s.engine.last_trigger_time now "funding_btc" = true then
        if |m.hype_funding_rate.getD 0| ≥ 0.10 ∧
            shouldTrigger s.engine.last_trigger_time now "funding_hype" = true then
          .ok (some (fundingBtcMessage (m.btc_funding_rate.getD 0) ++ "; " ++
                fundingHypeMessage (m.hype_funding_rate.getD 0)),
            ⟨⟨s.engine.last_allocation,
              ("funding_hype", now) :: ("funding_btc", now) :: s.engine.last_trigger_time⟩,
             ⟨fundingHypeMessage (m.hype_funding_rate.getD 0) ::
                fundingBtcMessage (m.btc_funding_rate.getD 0) :: s.fx.notifications,
              ⟨"HYPE", -20,
                "Crowded leverage: HYPE. Funding " ++ toString (m.hype_funding_rate.getD 0) ++ "%",
                "⚠️"⟩ ::
              ⟨"BTC", -20,
                "Crowded leverage: BTC. Funding " ++ toString (m.btc_funding_rate.getD 0) ++ "%",
                "⚠️"⟩ :: s.fx.journal⟩⟩)
        else
          .ok (some (fundingBtcMessage (m.btc_funding_rate.getD 0)),
            ⟨⟨s.engine.last_allocation, ("funding_btc", now) :: s.engine.last_trigger_time⟩,
             ⟨fundingBtcMessage (m.btc_funding_rate.getD 0) :: s.fx.notifications,
              ⟨"BTC", -20,
                "Crowded leverage: BTC. Funding " ++ toString (m.btc_funding_rate.getD 0) ++ "%",
                "⚠️"⟩ :: s.fx.journal⟩⟩)
      else if |m.hype_funding_rate.getD 0| ≥ 0.10 ∧
          shouldTrigger s.engine.last_trigger_time now "funding_hype" = true then
        .ok (some (fundingHypeMessage (m.hype_funding_rate.getD 0)),
          ⟨⟨s.engine.last_allocation, ("funding_hype", now) :: s.engine.last_trigger_time⟩,
           ⟨fundingHypeMessage (m.hype_funding_rate.getD 0) :: s.fx.notifications,
            ⟨"HYPE", -20,
              "Crowded leverage: HYPE. Funding " ++ toString (m.hype_funding_rate.getD 0) ++ "%",
              "⚠️"⟩ :: s.fx.journal⟩⟩)
      else .ok (none, s)) := by
  dsimp only [check_funding_triggers]
  have hs : shouldTrigger
      (("funding_btc", now) :: s.engine.last_trigger_time) now "funding_hype" =
      shouldTrigger s.engine.last_trigger_time now "funding_hype" :=
    shouldTrigger_cons_ne _ _ _ _ _ (by decide)
  split_ifs with h1 h2 h3
  · rw [fireAction_ok _ _ _ _ _ _ hj]
    simp only [Except.map, hs, if_pos h2, fireAction_ok _ _ _ _ _ _ hj]
    simp [intercalate_pair]
  · rw [fireAction_ok _ _ _ _ _ _ hj]
    simp only [Except.map, hs, if_neg h2]
    simp [intercalate_single]
  · simp only [if_neg h1, if_pos h3, fireAction_ok _ _ _ _ _ _ hj, Except.map]
    simp [intercalate_single]
  · simp only [if_neg h1, if_neg h3]
    rfl

theorem check_stablecoin_spec (w : World) (now : ℚ) (m : Metrics) (s : Sys)
    (hj : w.journalRaises = false) :
    check_stablecoin_triggers w now m s =
      (if m.stablecoin_delta.getD 0 ≥ 1000000000 ∧
          shouldTrigger s.engine.last_trigger_time now "stablecoin_issuance" = true then
        .ok (some (stablecoinMessage (m.stablecoin_delta.getD 0)),
          ⟨⟨s.engine.last_allocation,
            ("stablecoin_issuance", now) :: s.engine.last_trigger_time⟩,
           ⟨stablecoinMessage (m.stablecoin_delta.getD 0) :: s.fx.notifications,
            ⟨"STABLES", 10, "New stable-coin issuance", "💰"⟩ :: s.fx.journal⟩⟩)
      else .ok (none, s)) := by
  simp only [check_stablecoin_triggers]
  split_ifs with h
  · rw [fireAction_ok _ _ _ _ _ _ hj]
    rfl
  · rfl

theorem macroLoop_spec (w : World) (now : ℚ) (hj : w.journalRaises = false)
    (events : List MacroEvent) : ∀ s : Sys,
    macroLoop w now events s =
      (match events.find? (macroQualifies s.engine.last_trigger_time now) with
       | some e =>
         (some (macroMessage e),
          ⟨⟨s.engine.last_allocation, (macroKey e, now) :: s.engine.last_trigger_time⟩,
           ⟨macroMessage e :: s.fx.notifications,
            ⟨"CASH", 0, "Macro in play: " ++ e.name, "📅"⟩ :: s.fx.journal⟩⟩)
       | none => (none, s)) := by
  induction events with
  | nil => intro s; simp [macroLoop]
  | cons e rest ih =>
    intro s
    obtain ⟨nm, dt⟩ := e
    cases dt with
    | none =>
      have hq : ¬ (macroQualifies s.engine.last_trigger_time now ⟨nm, none⟩ = true) := by
        simp [macroQualifies, macroWindow]
      simp only [macroLoop]
      rw [ih s, List.find?_cons_of_neg _ hq]
    | some d =>
      simp only [macroLoop]
      by_cases hcond : |(d - now) / 3600| ≤ 12 ∧
          shouldTrigger s.engine.last_trigger_time now (macroKey ⟨nm, some d⟩) = true
      · rw [if_pos hcond, fireAction_ok _ _ _ _ _ _ hj]
        have hq : macroQualifies s.engine.last_trigger_time now ⟨nm, some d⟩ = true := by
          simp [macroQualifies, macroWindow, hcond.1, hcond.2]
        rw [List.find?_cons_of_pos _ hq]
      · rw [if_neg hcond]
        have hq : ¬ (macroQualifies s.engine.last_trigger_time now ⟨nm, some d⟩ = true) := by
          simp only [macroQualifies, macroWindow, Bool.and_eq_true, decide_eq_true_eq]
          intro hcontra
          exact hcond ⟨hcontra.1, hcontra.2⟩
        rw [ih s, List.find?_cons_of_neg _ hq]

theorem check_macro_spec (w : World) (now : ℚ) (m : Metrics) (s : Sys)
    (hj : w.journalRaises = false) :
    check_macro_triggers w now m s =
      (match m.macro_events.find? (macroQualifies s.engine.last_trigger_time now) with
       | some e =>
         .ok (some (macroMessage e),
          ⟨⟨s.engine.last_allocation, (macroKey e, now) :: s.engine.last_trigger_time⟩,
           ⟨macroMessage e :: s.fx.notifications,
            ⟨"CASH", 0, "Macro in play: " ++ e.name, "📅"⟩ :: s.fx.journal⟩⟩)
       | none => .ok (none, s)) := by
  unfold check_macro_triggers
  rw [macroLoop_spec w now hj m.macro_events s]
  cases m.macro_events.find? (macroQualifies s.engine.last_trigger_time now) <;> rfl

theorem macroLoop_frame (w : World) (now : ℚ) (events : List MacroEvent) :
    ∀ s : Sys,
      (macroLoop w now events s).2.engine.last_allocation =
        s.engine.last_allocation ∧
      ∀ k, (∀ e ∈ events, k ≠ macroKey e) →
        getTime (macroLoop w now events s).2.engine.last_trigger_time k =
          getTime s.engine.last_trigger_time k := by
  induction events with
  | nil => intro s; exact ⟨rfl, fun k _ => rfl⟩
  | cons e rest ih =>
    intro s
    obtain ⟨nm, dt⟩ := e
    cases dt with
    | none =>
      simp only [macroLoop]
      refine ⟨(ih s).1, fun k hk => ?_⟩
      exact (ih s).2 k (fun e' he' => hk e' (List.mem_cons_of_mem _ he'))
    | some d =>
      simp only [macroLoop]
      by_cases hcond : |(d - now) / 3600| ≤ 12 ∧
          shouldTrigger s.engine.last_trigger_time now (macroKey ⟨nm, some d⟩) = true
      · rw [if_pos hcond]
        cases hjr : w.journalRaises
        · rw [fireAction_ok _ _ _ _ _ _ hjr]
          refine ⟨rfl, fun k hk => ?_⟩
          have hne : macroKey ⟨nm, some d⟩ ≠ k :=
            fun hc => hk ⟨nm, some d⟩ (List.mem_cons_self _ _) hc.symm
          simp only [getTime_cons, if_neg hne]
        · rw [fireAction_err _ _ _ _ _ _ hjr]
          dsimp only
          set s1 : Sys :=
            ⟨⟨s.engine.last_allocation,
              (macroKey ⟨nm, some d⟩, now) :: s.engine.last_trigger_time⟩,
             ⟨macroMessage ⟨nm, some d⟩ :: s.fx.notifications, s.fx.journal⟩⟩ with hs1
          refine ⟨(ih s1).1, fun k hk => ?_⟩
          have h1 := (ih s1).2 k (fun e' he' => hk e' (List.mem_cons_of_mem _ he'))
          rw [h1, hs1]
          have hne : macroKey ⟨nm, some d⟩ ≠ k :=
            fun hc => hk ⟨nm, some d⟩ (List.mem_cons_self _ _) hc.symm
          simp only [getTime_cons, if_neg hne]
      · rw [if_neg hcond]
        refine ⟨(ih s).1, fun k hk => ?_⟩
        exact (ih s).2 k (fun e' he' => hk e' (List.mem_cons_of_mem _ he'))

theorem rotation_frame (w : World) (now : ℚ) (m : Metrics) (s : Sys)
    (r : Option String) (s' : Sys)
    (h : check_rotation_triggers w now m s = .ok (r, s')) :
    s'.engine.last_allocation = s.engine.last_allocation ∧
    ∀ k, k ≠ "rotation" →
      getTime s'.engine.last_trigger_time k = getTime s.engine.last_trigger_time k := by
  cases hjr : w.journalRaises
  · rw [check_rotation_spec w now m s hjr] at h
    split_ifs at h with hc
    · simp only [Except.ok.injEq, Prod.mk.injEq] at h
      obtain ⟨-, hs'⟩ := h
      subst hs'
      refine ⟨rfl, fun k hk => ?_⟩
      simp only [getTime_cons, if_neg (Ne.symm hk)]
    · simp only [Except.ok.injEq, Prod.mk.injEq] at h
      obtain ⟨-, hs'⟩ := h
      subst hs'
      exact ⟨rfl, fun k _ => rfl⟩
  · dsimp only [check_rotation_triggers] at h
    split_ifs at h with hc
    · rw [fireAction_err _ _ _ _ _ _ hjr] at h
      simp [Except.map] at h
    · simp only [Except.ok.injEq, Prod.mk.injEq] at h
      obtain ⟨-, hs'⟩ := h
      subst hs'
      exact ⟨rfl, fun k _ => rfl⟩

theorem alt_season_frame (w : World) (now : ℚ) (m : Metrics) (s : Sys)
    (r : Option String) (s' : Sys)
    (h : check_alt_season_triggers w now m s = .ok (r, s')) :
    s'.engine.last_allocation = s.engine.last_allocation ∧
    ∀ k, k ≠ "alt_season_full" → k ≠ "alt_season_end" →
      getTime s'.engine.last_trigger_time k = getTime s.engine.last_trigger_time k := by
  cases hjr : w.journalRaises
  · rw [check_alt_season_spec w now m s hjr] at h
    split_ifs at h with hc1 hc2 <;>
      simp only [Except.ok.injEq, Prod.mk.injEq] at h <;>
      obtain ⟨-, hs'⟩ := h <;> subst hs'
    · refine ⟨rfl, fun k hk1 hk2 => ?_⟩
      simp only [getTime_cons, if_neg (Ne.symm hk1)]
    · refine ⟨rfl, fun k hk1 hk2 => ?_⟩
      simp only [getTime_cons, if_neg (Ne.symm hk2)]
    · exact ⟨rfl, fun k _ _ => rfl⟩
  · dsimp only [check_alt_season_triggers] at h
    split_ifs at h with hc1 hc2
    · rw [fireAction_err _ _ _ _ _ _ hjr] at h
      simp [Except.map] at h
    · rw [fireAction_err _ _ _ _ _ _ hjr] at h
      simp [Except.map] at h
    · simp only [Except.ok.injEq, Prod.mk.injEq] at h
      obtain ⟨-, hs'⟩ := h
      subst hs'
      exact ⟨rfl, fun k _ _ => rfl⟩

theorem funding_frame (w : World) (now : ℚ) (m : Metrics) (s : Sys)
    (r : Option String) (s' : Sys)
    (h : check_funding_triggers w now m s = .ok (r, s')) :
    s'.engine.last_allocation = s.engine.last_allocation ∧
    ∀ k, k ≠ "funding_btc" → k ≠ "funding_hype" →
      getTime s'.engine.last_trigger_time k = getTime s.engine.last_trigger_time k := by
  cases hjr : w.journalRaises
  · rw [check_funding_spec w now m s hjr] at h
    split_ifs at h with hc1 hc2 hc3 <;>
      simp only [Except.ok.injEq, Prod.mk.injEq] at h <;>
      obtain ⟨-, hs'⟩ := h <;> subst hs'
    · refine ⟨rfl, fun k hk1 hk2 => ?_⟩
      simp only [getTime_cons, if_neg (Ne.symm hk1), if_neg (Ne.symm hk2)]
    · refine ⟨rfl, fun k hk1 hk2 => ?_⟩
      simp only [getTime_cons, if_neg (Ne.symm hk1)]
    · refine ⟨rfl, fun k hk1 hk2 => ?_⟩
      simp only [getTime_cons, if_neg (Ne.symm hk2)]
    · exact ⟨rfl, fun k _ _ => rfl⟩
  · dsimp only [check_funding_triggers] at h
    by_cases hc1 : |m.btc_funding_rate.getD 0| ≥ 0.10 ∧
        shouldTrigger s.engine.last_trigger_time now "funding_btc" = true
    · rw [if_pos hc1, fireAction_err _ _ _ _ _ _ hjr] at h
      simp [Except.map] at h
    · rw [if_neg hc1] at h
      dsimp only at h
      by_cases hc2 : |m.hype_funding_rate.getD 0| ≥ 0.10 ∧
          shouldTrigger s.engine.last_trigger_time now "funding_hype" = true
      · rw [if_pos hc2, fireAction_err _ _ _ _ _ _ hjr] at h
        simp [Except.map] at h
      · rw [if_neg hc2] at h
        simp only [Except.map, List.isEmpty_nil, if_pos, Except.ok.injEq,
          Prod.mk.injEq] at h
        obtain ⟨-, hs'⟩ := h
        subst hs'
        exact ⟨rfl, fun k _ _ => rfl⟩

theorem stablecoin_frame (w : World) (now : ℚ) (m : Metrics) (s : Sys)
    (r : Option String) (s' : Sys)
    (h : check_stablecoin_triggers w now m s = .ok (r, s')) :
    s'.engine.last_allocation = s.engine.last_allocation ∧
    ∀ k, k ≠ "stablecoin_issuance" →
      getTime s'.engine.last_trigger_time k = getTime s.engine.last_trigger_time k := by
  cases hjr : w.journalRaises
  · rw [check_stablecoin_spec w now m s hjr] at h
    split_ifs at h with hc
    · simp only [Except.ok.injEq, Prod.mk.injEq] at h
      obtain ⟨-, hs'⟩ := h
      subst hs'
      refine ⟨rfl, fun k hk => ?_⟩
      simp only [getTime_cons, if_neg (Ne.symm hk)]
    · simp only [Except.ok.injEq, Prod.mk.injEq] at h
      obtain ⟨-, hs'⟩ := h
      subst hs'
      exact ⟨rfl, fun k _ => rfl⟩
  · dsimp only [check_stablecoin_triggers] at h
    split_ifs at h with hc
    · rw [fireAction_err _ _ _ _ _ _ hjr] at h
      simp [Except.map] at h
    · simp only [Except.ok.injEq, Prod.mk.injEq] at h
      obtain ⟨-, hs'⟩ := h
      subst hs'
      exact ⟨rfl, fun k _ => rfl⟩

theorem macro_frame (w : World) (now : ℚ) (m : Metrics) (s : Sys)
    (r : Option String) (s' : Sys)
    (h : check_macro_triggers w now m s = .ok (r, s')) :
    s'.engine.last_allocation = s.engine.last_allocation ∧
    ∀ k, (∀ e ∈ m.macro_events, k ≠ macroKey e) →
      getTime s'.engine.last_trigger_time k = getTime s.engine.last_trigger_time k := by
  unfold check_macro_triggers at h
  simp only [Except.ok.injEq] at h
  have hs' : s' = (macroLoop w now m.macro_events s).2 := by
    rw [h]
  subst hs'
  exact ⟨(macroLoop_frame w now m.macro_events s).1,
    (macroLoop_frame w now m.macro_events s).2⟩

theorem check_rotation_isOk (w : World) (now : ℚ) (m : Metrics) (s : Sys)
    (hj : w.journalRaises = false) :
    ∃ r s', check_rotation_triggers w now m s = .ok (r, s') ∧
      s'.engine.last_allocation = s.engine.last_allocation := by
  rw [check_rotation_spec w now m s hj]
  split_ifs
  · exact ⟨_, _, rfl, rfl⟩
  · exact ⟨_, _, rfl, rfl⟩

theorem check_alt_season_isOk (w : World) (now : ℚ) (m : Metrics) (s : Sys)
    (hj : w.journalRaises = false) :
    ∃ r s', check_alt_season_triggers w now m s = .ok (r, s') ∧
      s'.engine.last_allocation = s.engine.last_allocation := by
  rw [check_alt_season_spec w now m s hj]
  split_ifs
  · exact ⟨_, _, rfl, rfl⟩
  · exact ⟨_, _, rfl, rfl⟩
  · exact ⟨_, _, rfl, rfl⟩

theorem check_funding_isOk (w : World) (now : ℚ) (m : Metrics) (s : Sys)
    (hj : w.journalRaises = false) :
    ∃ r s', check_funding_triggers w now m s = .ok (r, s') ∧
      s'.engine.last_allocation = s.engine.last_allocation := by
  rw [check_funding_spec w now m s hj]
  split_ifs
  · exact ⟨_, _, rfl, rfl⟩
  · exact ⟨_, _, rfl, rfl⟩
  · exact ⟨_, _, rfl, rfl⟩
  · exact ⟨_, _, rfl, rfl⟩

theorem check_stablecoin_isOk (w : World) (now : ℚ) (m : Metrics) (s : Sys)
    (hj : w.journalRaises = false) :
    ∃ r s', check_stablecoin_triggers w now m s = .ok (r, s') ∧
      s'.engine.last_allocation = s.engine.last_allocation := by
  rw [check_stablecoin_spec w now m s hj]
  split_ifs
  · exact ⟨_, _, rfl, rfl⟩
  · exact ⟨_, _, rfl, rfl⟩

theorem check_macro_isOk (w : World) (now : ℚ) (m : Metrics) (s : Sys) :
    ∃ r s', check_macro_triggers w now m s = .ok (r, s') ∧
      s'.engine.last_allocation = s.engine.last_allocation := by
  refine ⟨(macroLoop w now m.macro_events s).1, (macroLoop w now m.macro_events s).2,
    ?_, (macroLoop_frame w now m.macro_events s).1⟩
  unfold check_macro_triggers
  rw [Prod.mk.eta]

theorem runCategories_ok (w : World) (now : ℚ) (m : Metrics) (s : Sys)
    (hj : w.journalRaises = false) :
    ∃ rs s₁, runCategories w now m s = .ok (rs, s₁) ∧
      s₁.engine.last_allocation = s.engine.last_allocation := by
  obtain ⟨r1, s1, e1, a1⟩ := check_rotation_isOk w now m s hj
  obtain ⟨r2, s2, e2, a2⟩ := check_alt_season_isOk w now m s1 hj
  obtain ⟨r3, s3, e3, a3⟩ := check_funding_isOk w now m s2 hj
  obtain ⟨r4, s4, e4, a4⟩ := check_stablecoin_isOk w now m s3 hj
  obtain ⟨r5, s5, e5, a5⟩ := check_macro_isOk w now m s4
  refine ⟨(r1, r2, r3, r4, r5), s5, ?_, by rw [a5, a4, a3, a2, a1]⟩
  unfold runCategories
  rw [e1]
  dsimp only
  rw [e2]
  dsimp only
  rw [e3]
  dsimp only
  rw [e4]
  dsimp only
  rw [e5]

theorem allocationStep_none (w : World) (m : Metrics) (s : Sys)
    (h : s.engine.last_allocation = none) :
    allocationStep w m s = .ok (calculate_allocation m,
      ⟨⟨some (calculate_allocation m), s.engine.last_trigger_time⟩, s.fx⟩) := by
  unfold allocationStep
  rw [h]

theorem allocationStep_same (w : World) (m : Metrics) (s : Sys) (old : ℚ × ℚ × ℚ)
    (h : s.engine.last_allocation = some old) (heq : old = calculate_allocation m) :
    allocationStep w m s = .ok (calculate_allocation m,
      ⟨⟨some (calculate_allocation m), s.engine.last_trigger_time⟩, s.fx⟩) := by
  unfold allocationStep
  rw [h]
  dsimp only
  rw [if_neg (by simpa using heq)]

theorem allocationStep_diff (w : World) (m : Metrics) (s : Sys) (old : ℚ × ℚ × ℚ)
    (h : s.engine.last_allocation = some old) (hne : old ≠ calculate_allocation m)
    (hj : w.journalRaises = false) :
    allocationStep w m s = .ok (calculate_allocation m,
      ⟨⟨some (calculate_allocation m), s.engine.last_trigger_time⟩,
       ⟨allocationMessage (calculate_allocation m) :: s.fx.notifications,
        ⟨"ALLOCATION", ((calculate_allocation m).1 - old.1) * 100,
         "Auto allocation update", "📊"⟩ :: s.fx.journal⟩⟩) := by
  unfold allocationStep
  rw [h]
  dsimp only
  rw [if_pos (by simpa using hne), send_telegram_message_fx]
  simp [append_journal_entry, hj]

theorem allocationStep_diff_err (w : World) (m : Metrics) (s : Sys) (old : ℚ × ℚ × ℚ)
    (h : s.engine.last_allocation = some old) (hne : old ≠ calculate_allocation m)
    (hj : w.journalRaises = true) :
    allocationStep w m s = .error ("OSError",
      ⟨s.engine,
       ⟨allocationMessage (calculate_allocation m) :: s.fx.notifications, s.fx.journal⟩⟩) := by
  unfold allocationStep
  rw [h]
  dsimp only
  rw [if_pos (by simpa using hne), send_telegram_message_fx]
  simp [append_journal_entry, hj]

/-- C1: calculate_allocation returns exactly one of the three fixed tuples
selected by the bands in priority order; every returned tuple sums to 1.0
within 1e-9 (exactly 1 over the rationals); missing metrics default to
btc_dominance = 60 and alt_season_index = 50, which lands in the neutral
band; and any input with 60 ≤ btc_dominance < 61 and alt_season_index < 50
falls to the neutral branch, not the dominance branch. -/
theorem calculate_allocation_bands (m : Metrics) :
    (m.btc_dominance.getD 60 ≥ 61 ∧ m.alt_season_index.getD 50 < 50 →
      calculate_allocation m = (0.70, 0.25, 0.05)) ∧
    (¬(m.btc_dominance.getD 60 ≥ 61 ∧ m.alt_season_index.getD 50 < 50) →
      m.btc_dominance.getD 60 < 60 ∧ m.alt_season_index.getD 50 ≥ 50 →
      calculate_allocation m = (0.45, 0.50, 0.05)) ∧
    (¬(m.btc_dominance.getD 60 ≥ 61 ∧ m.alt_season_index.getD 50 < 50) →
      ¬(m.btc_dominance.getD 60 < 60 ∧ m.alt_season_index.getD 50 ≥ 50) →
      calculate_allocation m = (0.60, 0.35, 0.05)) ∧
    |(calculate_allocation m).1 + (calculate_allocation m).2.1 +
      (calculate_allocation m).2.2 - 1| ≤ 1 / 1000000000 ∧
    calculate_allocation ({} : Metrics) = (0.60, 0.35, 0.05) ∧
    (60 ≤ m.btc_dominance.getD 60 → m.btc_dominance.getD 60 < 61 →
      m.alt_season_index.getD 50 < 50 →
      calculate_allocation m = (0.60, 0.35, 0.05)) := by
  refine ⟨?_, ?_, ?_, ?_, ?_, ?_⟩
  · intro h
    simp only [calculate_allocation, if_pos h]
  · intro h1 h2
    simp only [calculate_allocation, if_neg h1, if_pos h2]
  · intro h1 h2
    simp only [calculate_allocation, if_neg h1, if_neg h2]
  · simp only [calculate_allocation]
    split_ifs <;> norm_num
  · norm_num [calculate_allocation]
  · intro hlo hhi halt
    have h1 : ¬(m.btc_dominance.getD 60 ≥ 61 ∧ m.alt_season_index.getD 50 < 50) := by
      intro h
      linarith [h.1]
    have h2 : ¬(m.btc_dominance.getD 60 < 60 ∧ m.alt_season_index.getD 50 ≥ 50) := by
      intro h
      linarith [h.1]
    simp only [calculate_allocation, if_neg h1, if_neg h2]

/-- C1 witness: the bands evaluated at the concrete snapshot with
btc_dominance 65 and alt_season_index 40 give the dominance tuple, and the
boundary input 60.5 with alt_season_index 40 gives the neutral tuple. -/
theorem calculate_allocation_bands_witness :
    calculate_allocation { btc_dominance := some 65, alt_season_index := some 40 } =
      (0.70, 0.25, 0.05) ∧
    calculate_allocation { btc_dominance := some 60.5, alt_season_index := some 40 } =
      (0.60, 0.35, 0.05) := by
  constructor
  · exact (calculate_allocation_bands
      { btc_dominance := some 65, alt_season_index := some 40 }).1 (by norm_num)
  · exact (calculate_allocation_bands
      { btc_dominance := some 60.5, alt_season_index := some 40 }).2.2.2.2.2
      (by norm_num) (by norm_num) (by norm_num)

/-- C2: in every completed evaluation cycle, the allocation-change
notification and its journal entry (asset "ALLOCATION", delta equal to 100
times the difference between the new and old btc fractions) are emitted if
and only if a prior allocation exists and the new allocation tuple differs
from it by exact tuple inequality; the comparison consults no cooldown
state (the cooldown map is passed through untouched and the condition
depends only on the stored allocation); and the newly computed allocation
is stored as the last allocation on every call, including the first. -/
theorem check_all_allocation_change (w : World) (now : ℚ) (m : Metrics) (s : Sys)
    (hj : w.journalRaises = false) :
    ∃ r1 r2 r3 r4 r5 s₁ s',
      runCategories w now m s = .ok ((r1, r2, r3, r4, r5), s₁) ∧
      s₁.engine.last_allocation = s.engine.last_allocation ∧
      check_all_triggers w now m s =
        .ok (⟨r1, r2, r3, r4, r5, calculate_allocation m⟩, s') ∧
      s'.engine.last_allocation = some (calculate_allocation m) ∧
      s'.engine.last_trigger_time = s₁.engine.last_trigger_time ∧
      (match s.engine.last_allocation with
       | some old =>
         (old ≠ calculate_allocation m →
           s'.fx.notifications =
             allocationMessage (calculate_allocation m) :: s₁.fx.notifications ∧
           s'.fx.journal =
             ⟨"ALLOCATION", ((calculate_allocation m).1 - old.1) * 100,
              "Auto allocation update", "📊"⟩ :: s₁.fx.journal) ∧
         (old = calculate_allocation m → s'.fx = s₁.fx)
       | none => s'.fx = s₁.fx) := by
  obtain ⟨rs, s₁, hrun, halloc⟩ := runCategories_ok w now m s hj
  obtain ⟨r1, r2, r3, r4, r5⟩ := rs
  cases hsla : s.engine.last_allocation with
  | none =>
    have h1 : s₁.engine.last_allocation = none := by rw [halloc, hsla]
    refine ⟨r1, r2, r3, r4, r5, s₁,
      ⟨⟨some (calculate_allocation m), s₁.engine.last_trigger_time⟩, s₁.fx⟩,
      hrun, h1, ?_, rfl, rfl, rfl⟩
    unfold check_all_triggers
    rw [hrun]
    dsimp only
    rw [allocationStep_none w m s₁ h1]
  | some old =>
    have h1 : s₁.engine.last_allocation = some old := by rw [halloc, hsla]
    by_cases hne : old = calculate_allocation m
    · refine ⟨r1, r2, r3, r4, r5, s₁,
        ⟨⟨some (calculate_allocation m), s₁.engine.last_trigger_time⟩, s₁.fx⟩,
        hrun, h1, ?_, rfl, rfl, ?_⟩
      · unfold check_all_triggers
        rw [hrun]
        dsimp only
        rw [allocationStep_same w m s₁ old h1 hne]
      · exact ⟨fun hc => absurd hne hc, fun _ => rfl⟩
    · refine ⟨r1, r2, r3, r4, r5, s₁,
        ⟨⟨some (calculate_allocation m), s₁.engine.last_trigger_time⟩,
         ⟨allocationMessage (calculate_allocation m) :: s₁.fx.notifications,
          ⟨"ALLOCATION", ((calculate_allocation m).1 - old.1) * 100,
           "Auto allocation update", "📊"⟩ :: s₁.fx.journal⟩⟩,
        hrun, h1, ?_, rfl, rfl, ?_⟩
      · unfold check_all_triggers
        rw [hrun]
        dsimp only
        rw [allocationStep_diff w m s₁ old h1 hne hj]
      · exact ⟨fun _ => ⟨rfl, rfl⟩, fun hc => absurd hc hne⟩

/-- C2 witness: with a stored allocation (0.70, 0.25, 0.05) and an empty
snapshot (neutral allocation), the cycle completes and the update fires. -/
theorem check_all_allocation_change_witness :
    (check_all_triggers ⟨true, false, false⟩ 100000 ({} : Metrics)
      ⟨⟨some (0.70, 0.25, 0.05), []⟩, ⟨[], []⟩⟩).isOk = true := by
  obtain ⟨r1, r2, r3, r4, r5, s₁, s', -, -, hall, -⟩ :=
    check_all_allocation_change ⟨true, false, false⟩ 100000 ({} : Metrics)
      ⟨⟨some (0.70, 0.25, 0.05), []⟩, ⟨[], []⟩⟩ rfl
  rw [hall]
  rfl

/-- C3 counterexample: with an empty cooldown map — no prior fire recorded
for "rotation" — and current instant 0, _should_trigger returns False: the
dict lookup defaults the last-fired time to 0, so within the first 12
hours after the epoch the claimed "no prior fire implies eligible" fails. -/
theorem shouldTrigger_epoch_cex :
    recordedTime [] "rotation" = none ∧ shouldTrigger [] 0 "rotation" = false := by
  refine ⟨rfl, ?_⟩
  have h0 : getTime [] "rotation" = 0 := rfl
  simp only [shouldTrigger, h0]
  rw [decide_eq_false_iff_not]
  norm_num [cooldown_hours]

/-- C3 (amended): provided the current instant is at least 12 hours past
the epoch — true of every value time.time() returns in practice —
_should_trigger returns true iff no prior fire is recorded for the name or
the elapsed time since the recorded fire is at least the 12-hour window;
and _record_trigger unconditionally overwrites the recorded instant. -/
theorem cooldown_contract (times : List (String × ℚ)) (now : ℚ) (name : String)
    (h : cooldown_hours * 3600 ≤ now) :
    (shouldTrigger times now name = true ↔
      (recordedTime times name = none ∨
       ∃ t, recordedTime times name = some t ∧ cooldown_hours * 3600 ≤ now - t)) ∧
    (∀ (ts : List (String × ℚ)) (n : String) (t' : ℚ),
      recordedTime (recordTrigger ts n t') n = some t') := by
  constructor
  · cases hr : recordedTime times name with
    | none =>
      simp only [shouldTrigger, getTime_eq_recordedTime, hr, Option.getD_none]
      constructor
      · intro _
        exact Or.inl trivial
      · intro _
        rw [decide_eq_true_eq]
        linarith
    | some t =>
      simp only [shouldTrigger, getTime_eq_recordedTime, hr, Option.getD_some,
        decide_eq_true_eq]
      constructor
      · intro hle
        exact Or.inr ⟨t, rfl, hle⟩
      · rintro (hnone | ⟨t', ht', hle⟩)
        · simp at hnone
        · rw [Option.some.injEq] at ht'
          rw [ht']
          exact hle
  · intro ts n t'
    unfold recordTrigger
    rw [recordedTime_cons, if_pos rfl]

/-- C3 witness: at instant 50000 (past the 12-hour mark) the contract gives
eligibility for an unrecorded name. -/
theorem cooldown_contract_witness : shouldTrigger [] 50000 "rotation" = true := by
  have h := (cooldown_contract [] 50000 "rotation"
    (by norm_num [cooldown_hours])).1
  exact h.mpr (Or.inl rfl)

/-- C5 counterexample: with the journal file unwritable, a firing rotation
trigger raises out of check_all_triggers — the cycle aborts before the
remaining four evaluators and the allocation computation run, contradicting
the claim that every sink call is independently fault-isolated. The error
state shows the cooldown was recorded and the notification sent. -/
theorem journal_failure_aborts_cycle :
    check_all_triggers ⟨true, false, true⟩ 100000
      { btc_dominance := some 55, alt_season_index := some 80 } initialSys =
      .error ("OSError",
        ⟨⟨none, [("rotation", 100000)]⟩, ⟨[rotationMessage 55 80], []⟩⟩) := by
  have hsh : shouldTrigger [] 100000 "rotation" = true := by
    norm_num [shouldTrigger, getTime, cooldown_hours]
  have hrot : check_rotation_triggers ⟨true, false, true⟩ 100000
      { btc_dominance := some 55, alt_season_index := some 80 } initialSys =
      .error ("OSError",
        ⟨⟨none, [("rotation", 100000)]⟩, ⟨[rotationMessage 55 80], []⟩⟩) := by
    dsimp only [check_rotation_triggers, Option.getD, initialSys, initialEngine]
    rw [if_pos ⟨by norm_num, by norm_num, hsh⟩, fireAction_err _ _ _ _ _ _ rfl]
    rfl
  unfold check_all_triggers runCategories
  rw [hrot]

theorem check_rotation_wirrel (c p c' p' : Bool) (now : ℚ) (m : Metrics) (s : Sys) :
    check_rotation_triggers ⟨c, p, false⟩ now m s =
      check_rotation_triggers ⟨c', p', false⟩ now m s := by
  rw [check_rotation_spec _ _ _ _ rfl, check_rotation_spec _ _ _ _ rfl]

theorem check_alt_season_wirrel (c p c' p' : Bool) (now : ℚ) (m : Metrics) (s : Sys) :
    check_alt_season_triggers ⟨c, p, false⟩ now m s =
      check_alt_season_triggers ⟨c', p', false⟩ now m s := by
  rw [check_alt_season_spec _ _ _ _ rfl, check_alt_season_spec _ _ _ _ rfl]

theorem check_funding_wirrel (c p c' p' : Bool) (now : ℚ) (m : Metrics) (s : Sys) :
    check_funding_triggers ⟨c, p, false⟩ now m s =
      check_funding_triggers ⟨c', p', false⟩ now m s := by
  rw [check_funding_spec _ _ _ _ rfl, check_funding_spec _ _ _ _ rfl]

theorem check_stablecoin_wirrel (c p c' p' : Bool) (now : ℚ) (m : Metrics) (s : Sys) :
    check_stablecoin_triggers ⟨c, p, false⟩ now m s =
      check_stablecoin_triggers ⟨c', p', false⟩ now m s := by
  rw [check_stablecoin_spec _ _ _ _ rfl, check_stablecoin_spec _ _ _ _ rfl]

theorem check_macro_wirrel (c p c' p' : Bool) (now : ℚ) (m : Metrics) (s : Sys) :
    check_macro_triggers ⟨c, p, false⟩ now m s =
      check_macro_triggers ⟨c', p', false⟩ now m s := by
  rw [check_macro_spec _ _ _ _ rfl, check_macro_spec _ _ _ _ rfl]

theorem runCategories_wirrel (c p c' p' : Bool) (now : ℚ) (m : Metrics) (s : Sys) :
    runCategories ⟨c, p, false⟩ now m s = runCategories ⟨c', p', false⟩ now m s := by
  unfold runCategories
  rw [check_rotation_wirrel c p c' p' now m s]
  simp only [check_alt_season_wirrel c p c' p' now m,
    check_funding_wirrel c p c' p' now m, check_stablecoin_wirrel c p c' p' now m,
    check_macro_wirrel c p c' p' now m]

theorem allocationStep_wirrel (c p c' p' : Bool) (m : Metrics) (s : Sys) :
    allocationStep ⟨c, p, false⟩ m s = allocationStep ⟨c', p', false⟩ m s := by
  cases hla : s.engine.last_allocation with
  | none => rw [allocationStep_none _ _ _ hla, allocationStep_none _ _ _ hla]
  | some old =>
    by_cases heq : old = calculate_allocation m
    · rw [allocationStep_same _ _ _ _ hla heq, allocationStep_same _ _ _ _ hla heq]
    · rw [allocationStep_diff _ _ _ _ hla heq rfl, allocationStep_diff _ _ _ _ hla heq rfl]

/-- C5 (amended): side-effect failures of the Notification Sink never abort
a cycle and never change its outcome: whenever the journal write succeeds,
check_all_triggers completes, and its entire result — returned dict, engine
state and side-effect log — is independent of whether the Telegram bot is
configured or its HTTP post raises. (A Journal Sink failure, by contrast,
aborts the cycle: see the counterexample. Inside the macro evaluator a
journal failure is caught per event by the loop's try/except.) -/
theorem notification_sink_isolation (now : ℚ) (m : Metrics) (s : Sys)
    (c p c' p' : Bool) :
    (check_all_triggers ⟨c, p, false⟩ now m s).isOk = true ∧
    check_all_triggers ⟨c, p, false⟩ now m s =
      check_all_triggers ⟨c', p', false⟩ now m s := by
  constructor
  · obtain ⟨rs, s₁, hrun, halloc⟩ := runCategories_ok ⟨c, p, false⟩ now m s rfl
    obtain ⟨r1, r2, r3, r4, r5⟩ := rs
    unfold check_all_triggers
    rw [hrun]
    dsimp only
    cases hla : s₁.engine.last_allocation with
    | none => rw [allocationStep_none _ _ _ hla]; rfl
    | some old =>
      by_cases heq : old = calculate_allocation m
      · rw [allocationStep_same _ _ _ _ hla heq]; rfl
      · rw [allocationStep_diff _ _ _ _ hla heq rfl]; rfl
  · unfold check_all_triggers
    rw [runCategories_wirrel c p c' p' now m s]
    simp only [allocationStep_wirrel c p c' p' m]

theorem shouldTrigger_false_of (times : List (String × ℚ)) (now t : ℚ) (k : String)
    (h : getTime times k = t) (hlt : now - t < cooldown_hours * 3600) :
    shouldTrigger times now k = false := by
  simp only [shouldTrigger, h]
  rw [decide_eq_false_iff_not]
  intro hge
  linarith

theorem shouldTrigger_true_of (times : List (String × ℚ)) (now t : ℚ) (k : String)
    (h : getTime times k = t) (hge : cooldown_hours * 3600 ≤ now - t) :
    shouldTrigger times now k = true := by
  simp only [shouldTrigger, h]
  rw [decide_eq_true_eq]
  linarith

/-- C6: the macro evaluator iterates macro_events in order, silently skips
any event whose date fails to parse, and never fails the cycle (it returns
a value for every world, even one whose journal write raises); an event
qualifies through the per-event cooldown key "macro_" ++ name together
with the 12-hour date window; with a working journal sink the evaluator
returns exactly the alert of the first qualifying event in iteration order
and adds at most one macro notification per cycle. -/
theorem check_macro_first_qualifying (w : World) (now : ℚ) (m : Metrics) (s : Sys)
    (hj : w.journalRaises = false) :
    check_macro_triggers w now m s =
      (match m.macro_events.find? (macroQualifies s.engine.last_trigger_time now) with
       | some e =>
         .ok (some (macroMessage e),
           ⟨⟨s.engine.last_allocation, (macroKey e, now) :: s.engine.last_trigger_time⟩,
            ⟨macroMessage e :: s.fx.notifications,
             ⟨"CASH", 0, "Macro in play: " ++ e.name, "📅"⟩ :: s.fx.journal⟩⟩)
       | none => .ok (none, s)) ∧
    (∀ e : MacroEvent, e.date = none →
      macroQualifies s.engine.last_trigger_time now e = false) ∧
    (∀ e : MacroEvent, macroQualifies s.engine.last_trigger_time now e = true →
      macroWindow now e = true ∧
      shouldTrigger s.engine.last_trigger_time now ("macro_" ++ e.name) = true) ∧
    (∀ w' : World, (check_macro_triggers w' now m s).isOk = true) ∧
    (∀ r s', check_macro_triggers w now m s = .ok (r, s') →
      s'.fx.notifications.length ≤ s.fx.notifications.length + 1) := by
  refine ⟨check_macro_spec w now m s hj, ?_, ?_, ?_, ?_⟩
  · intro e hd
    simp [macroQualifies, macroWindow, hd]
  · intro e hq
    rw [macroQualifies, Bool.and_eq_true] at hq
    exact ⟨hq.1, hq.2⟩
  · intro w'
    unfold check_macro_triggers
    rfl
  · intro r s' h
    rw [check_macro_spec w now m s hj] at h
    split at h
    · simp only [Except.ok.injEq, Prod.mk.injEq] at h
      obtain ⟨-, hs'⟩ := h
      subst hs'
      simp
    · simp only [Except.ok.injEq, Prod.mk.injEq] at h
      obtain ⟨-, hs'⟩ := h
      subst hs'
      exact Nat.le_succ _

/-- C6 witness: an unparsable first event is skipped and the second event,
in window and cooldown-eligible, fires with key macro_CPI. -/
theorem check_macro_first_qualifying_witness :
    check_macro_triggers ⟨true, false, false⟩ 100000
      { macro_events := [⟨"Bad", none⟩, ⟨"CPI", some 100000⟩] } initialSys =
      .ok (some (macroMessage ⟨"CPI", some 100000⟩),
        ⟨⟨none, [("macro_CPI", 100000)]⟩,
         ⟨[macroMessage ⟨"CPI", some 100000⟩],
          [⟨"CASH", 0, "Macro in play: CPI", "📅"⟩]⟩⟩) := by
  have h := (check_macro_first_qualifying ⟨true, false, false⟩ 100000
    { macro_events := [⟨"Bad", none⟩, ⟨"CPI", some 100000⟩] } initialSys rfl).1
  rw [h]
  have hq1 : ¬ (macroQualifies initialSys.engine.last_trigger_time 100000
      ⟨"Bad", none⟩ = true) := by
    simp [macroQualifies, macroWindow]
  have hq2 : macroQualifies initialSys.engine.last_trigger_time 100000
      ⟨"CPI", some 100000⟩ = true := by
    norm_num [macroQualifies, macroWindow, shouldTrigger, getTime, cooldown_hours,
      initialSys, initialEngine]
  rw [List.find?_cons_of_neg _ hq1, List.find?_cons_of_pos _ hq2]
  rfl

/-- C7: the Funding-BTC and Funding-HYPE conditions are evaluated
independently in the same cycle: when both hold and both keys are
eligible, both fire — both cooldown keys are recorded and the returned
funding result is the two alert messages joined with "; "; when only one
fires its message alone is returned; when neither fires the result is
absent and the state unchanged. -/
theorem check_funding_independent (w : World) (now : ℚ) (m : Metrics) (s : Sys)
    (hj : w.journalRaises = false) :
    ((|m.btc_funding_rate.getD 0| ≥ 0.10 ∧
        shouldTrigger s.engine.last_trigger_time now "funding_btc" = true) →
     (|m.hype_funding_rate.getD 0| ≥ 0.10 ∧
        shouldTrigger s.engine.last_trigger_time now "funding_hype" = true) →
      ∃ s', check_funding_triggers w now m s =
          .ok (some (fundingBtcMessage (m.btc_funding_rate.getD 0) ++ "; " ++
            fundingHypeMessage (m.hype_funding_rate.getD 0)), s') ∧
        getTime s'.engine.last_trigger_time "funding_btc" = now ∧
        getTime s'.engine.last_trigger_time "funding_hype" = now) ∧
    ((|m.btc_funding_rate.getD 0| ≥ 0.10 ∧
        shouldTrigger s.engine.last_trigger_time now "funding_btc" = true) →
     ¬(|m.hype_funding_rate.getD 0| ≥ 0.10 ∧
        shouldTrigger s.engine.last_trigger_time now "funding_hype" = true) →
      ∃ s', check_funding_triggers w now m s =
        .ok (some (fundingBtcMessage (m.btc_funding_rate.getD 0)), s')) ∧
    (¬(|m.btc_funding_rate.getD 0| ≥ 0.10 ∧
        shouldTrigger s.engine.last_trigger_time now "funding_btc" = true) →
     (|m.hype_funding_rate.getD 0| ≥ 0.10 ∧
        shouldTrigger s.engine.last_trigger_time now "funding_hype" = true) →
      ∃ s', check_funding_triggers w now m s =
        .ok (some (fundingHypeMessage (m.hype_funding_rate.getD 0)), s')) ∧
    (¬(|m.btc_funding_rate.getD 0| ≥ 0.10 ∧
        shouldTrigger s.engine.last_trigger_time now "funding_btc" = true) →
     ¬(|m.hype_funding_rate.getD 0| ≥ 0.10 ∧
        shouldTrigger s.engine.last_trigger_time now "funding_hype" = true) →
      check_funding_triggers w now m s = .ok (none, s)) := by
  rw [check_funding_spec w now m s hj]
  refine ⟨?_, ?_, ?_, ?_⟩
  · intro h1 h2
    rw [if_pos h1, if_pos h2]
    refine ⟨_, rfl, ?_, ?_⟩
    · rw [getTime_cons, if_neg (by decide), getTime_cons, if_pos rfl]
    · rw [getTime_cons, if_pos rfl]
  · intro h1 h2
    rw [if_pos h1, if_neg h2]
    exact ⟨_, rfl⟩
  · intro h1 h2
    rw [if_neg h1, if_pos h2]
    exact ⟨_, rfl⟩
  · intro h1 h2
    rw [if_neg h1, if_neg h2]

/-- C7 witness: funding rates 0.15 and -0.2 from a fresh engine make both
conditions fire in one cycle, record both keys, and join the messages. -/
theorem check_funding_independent_witness :
    ∃ s', check_funding_triggers ⟨true, false, false⟩ 100000
        { btc_funding_rate := some 0.15, hype_funding_rate := some (-0.2) }
        initialSys =
        .ok (some (fundingBtcMessage ((some (0.15 : ℚ)).getD 0) ++ "; " ++
          fundingHypeMessage ((some (-(0.2 : ℚ))).getD 0)), s') ∧
      getTime s'.engine.last_trigger_time "funding_btc" = 100000 ∧
      getTime s'.engine.last_trigger_time "funding_hype" = 100000 := by
  refine (check_funding_independent ⟨true, false, false⟩ 100000
      { btc_funding_rate := some 0.15, hype_funding_rate := some (-0.2) }
      initialSys rfl).1 ⟨?_, ?_⟩ ⟨?_, ?_⟩
  · show |(0.15 : ℚ)| ≥ 0.10
    rw [abs_of_nonneg (by norm_num)]
    norm_num
  · norm_num [shouldTrigger, getTime, cooldown_hours, initialSys, initialEngine]
  · show |(-(0.2 : ℚ))| ≥ 0.10
    rw [abs_neg, abs_of_nonneg (by norm_num)]
    norm_num
  · norm_num [shouldTrigger, getTime, cooldown_hours, initialSys, initialEngine]

/-- C8: the two alt-season branches can never both fire in one call: the
call adds at most one notification and one journal row, and whichever
branch is enabled by the metric leaves the other branch's cooldown key
untouched (indices ≥ 75 never record alt_season_end; indices < 75 never
record alt_season_full). -/
theorem alt_season_exclusive (w : World) (now : ℚ) (m : Metrics) (s : Sys)
    (r : Option String) (s' : Sys)
    (h : check_alt_season_triggers w now m s = .ok (r, s')) :
    s'.fx.notifications.length ≤ s.fx.notifications.length + 1 ∧
    s'.fx.journal.length ≤ s.fx.journal.length + 1 ∧
    (75 ≤ m.alt_season_index.getD 50 →
      getTime s'.engine.last_trigger_time "alt_season_end" =
        getTime s.engine.last_trigger_time "alt_season_end") ∧
    (m.alt_season_index.getD 50 < 75 →
      getTime s'.engine.last_trigger_time "alt_season_full" =
        getTime s.engine.last_trigger_time "alt_season_full") := by
  cases hjr : w.journalRaises
  · rw [check_alt_season_spec w now m s hjr] at h
    split_ifs at h with h1 h2 <;>
      simp only [Except.ok.injEq, Prod.mk.injEq] at h <;>
      obtain ⟨-, hs'⟩ := h <;> subst hs'
    · refine ⟨by simp, by simp, fun _ => ?_, fun hlt => absurd h1.1 (by linarith)⟩
      rw [getTime_cons, if_neg (by decide)]
    · refine ⟨by simp, by simp, fun h75 => absurd h2.1 (by linarith), fun _ => ?_⟩
      rw [getTime_cons, if_neg (by decide)]
    · exact ⟨Nat.le_succ _, Nat.le_succ _, fun _ => rfl, fun _ => rfl⟩
  · dsimp only [check_alt_season_triggers] at h
    split_ifs at h with h1 h2
    · rw [fireAction_err _ _ _ _ _ _ hjr] at h
      simp [Except.map] at h
    · rw [fireAction_err _ _ _ _ _ _ hjr] at h
      simp [Except.map] at h
    · simp only [Except.ok.injEq, Prod.mk.injEq] at h
      obtain ⟨-, hs'⟩ := h
      subst hs'
      exact ⟨Nat.le_succ _, Nat.le_succ _, fun _ => rfl, fun _ => rfl⟩

/-- C8 witness: a full-alt-season firing at index 80 leaves the
alt_season_end cooldown key untouched. -/
theorem alt_season_exclusive_witness :
    getTime ((⟨⟨none, [("alt_season_full", 100000)]⟩,
        ⟨[altFullMessage ((some (80 : ℚ)).getD 50)],
         [⟨"ALTS", 25, "Full alt-season", "🚀"⟩]⟩⟩ : Sys)).engine.last_trigger_time
        "alt_season_end" =
      getTime initialSys.engine.last_trigger_time "alt_season_end" := by
  have h : check_alt_season_triggers ⟨true, false, false⟩ 100000
      { alt_season_index := some 80 } initialSys =
      .ok (some (altFullMessage ((some (80 : ℚ)).getD 50)),
        ⟨⟨none, [("alt_season_full", 100000)]⟩,
         ⟨[altFullMessage ((some (80 : ℚ)).getD 50)],
          [⟨"ALTS", 25, "Full alt-season", "🚀"⟩]⟩⟩) := by
    rw [check_alt_season_spec _ _ _ _ rfl, if_pos
      ⟨by norm_num [Option.getD_some],
       by norm_num [shouldTrigger, getTime, cooldown_hours, initialSys, initialEngine]⟩]
    rfl
  exact (alt_season_exclusive ⟨true, false, false⟩ 100000
    { alt_season_index := some 80 } initialSys _ _ h).2.2.1
    (by norm_num [Option.getD_some])

/-- C9: each evaluator writes only its own cooldown key or keys — rotation,
alt_season_full and alt_season_end, funding_btc and funding_hype,
stablecoin_issuance, and macro_ ++ event name — so firing one condition
leaves the recorded last-fired instant of every other key, and with it the
eligibility of every other condition, unchanged; all evaluators share the
single 12-hour window constant cooldown_hours. -/
theorem cooldown_keys_frame (w : World) (now : ℚ) (m : Metrics) :
    (∀ s r s', check_rotation_triggers w now m s = .ok (r, s') →
      ∀ k, k ≠ "rotation" →
        getTime s'.engine.last_trigger_time k = getTime s.engine.last_trigger_time k) ∧
    (∀ s r s', check_alt_season_triggers w now m s = .ok (r, s') →
      ∀ k, k ≠ "alt_season_full" → k ≠ "alt_season_end" →
        getTime s'.engine.last_trigger_time k = getTime s.engine.last_trigger_time k) ∧
    (∀ s r s', check_funding_triggers w now m s = .ok (r, s') →
      ∀ k, k ≠ "funding_btc" → k ≠ "funding_hype" →
        getTime s'.engine.last_trigger_time k = getTime s.engine.last_trigger_time k) ∧
    (∀ s r s', check_stablecoin_triggers w now m s = .ok (r, s') →
      ∀ k, k ≠ "stablecoin_issuance" →
        getTime s'.engine.last_trigger_time k = getTime s.engine.last_trigger_time k) ∧
    (∀ s r s', check_macro_triggers w now m s = .ok (r, s') →
      ∀ k, (∀ e ∈ m.macro_events, k ≠ macroKey e) →
        getTime s'.engine.last_trigger_time k = getTime s.engine.last_trigger_time k) ∧
    cooldown_hours = 12 :=
  ⟨fun s r s' h => (rotation_frame w now m s r s' h).2,
   fun s r s' h => (alt_season_frame w now m s r s' h).2,
   fun s r s' h => (funding_frame w now m s r s' h).2,
   fun s r s' h => (stablecoin_frame w now m s r s' h).2,
   fun s r s' h => (macro_frame w now m s r s' h).2,
   rfl⟩

/-- C9 witness: a firing rotation trigger leaves the funding_btc key's
recorded time unchanged. -/
theorem cooldown_keys_frame_witness :
    getTime ((⟨⟨none, [("rotation", 100000)]⟩,
        ⟨[rotationMessage ((some (55 : ℚ)).getD 60) ((some (80 : ℚ)).getD 50)],
         [⟨"ROTATION", -10, "BTC.D <60, rotate", "😐"⟩]⟩⟩ :
          Sys)).engine.last_trigger_time "funding_btc" =
      getTime initialSys.engine.last_trigger_time "funding_btc" := by
  have h : check_rotation_triggers ⟨true, false, false⟩ 100000
      { btc_dominance := some 55, alt_season_index := some 80 } initialSys =
      .ok (some (rotationMessage ((some (55 : ℚ)).getD 60) ((some (80 : ℚ)).getD 50)),
        ⟨⟨none, [("rotation", 100000)]⟩,
         ⟨[rotationMessage ((some (55 : ℚ)).getD 60) ((some (80 : ℚ)).getD 50)],
          [⟨"ROTATION", -10, "BTC.D <60, rotate", "😐"⟩]⟩⟩) := by
    rw [check_rotation_spec _ _ _ _ rfl, if_pos
      ⟨by norm_num [Option.getD_some], by norm_num [Option.getD_some],
       by norm_num [shouldTrigger, getTime, cooldown_hours, initialSys, initialEngine]⟩]
    rfl
  exact (cooldown_keys_frame ⟨true, false, false⟩ 100000
    { btc_dominance := some 55, alt_season_index := some 80 }).1 _ _ _ h
    "funding_btc" (by decide)

/-- C10: in the rotation, funding-BTC and stablecoin evaluators the
cooldown timestamp is recorded before the notification and journal sink
calls; hence when the journal sink raises while the condition fires, the
evaluator propagates the exception with the key already recorded at now
and the notification already sent but no journal row appended — and the
trigger stays ineligible for the rest of the 12-hour window even though
its journal entry was never delivered. -/
theorem record_precedes_sinks (w : World) (now : ℚ) (m : Metrics) (s : Sys)
    (hj : w.journalRaises = true) :
    ((m.btc_dominance.getD 60 < 60 ∧ m.alt_season_index.getD 50 > 50 ∧
        shouldTrigger s.engine.last_trigger_time now "rotation" = true) →
      check_rotation_triggers w now m s = .error ("OSError",
        ⟨⟨s.engine.last_allocation, ("rotation", now) :: s.engine.last_trigger_time⟩,
         ⟨rotationMessage (m.btc_dominance.getD 60) (m.alt_season_index.getD 50) ::
            s.fx.notifications, s.fx.journal⟩⟩) ∧
      (∀ now₂, now₂ - now < cooldown_hours * 3600 →
        shouldTrigger (("rotation", now) :: s.engine.last_trigger_time) now₂
          "rotation" = false)) ∧
    ((|m.btc_funding_rate.getD 0| ≥ 0.10 ∧
        shouldTrigger s.engine.last_trigger_time now "funding_btc" = true) →
      check_funding_triggers w now m s = .error ("OSError",
        ⟨⟨s.engine.last_allocation, ("funding_btc", now) :: s.engine.last_trigger_time⟩,
         ⟨fundingBtcMessage (m.btc_funding_rate.getD 0) :: s.fx.notifications,
          s.fx.journal⟩⟩) ∧
      (∀ now₂, now₂ - now < cooldown_hours * 3600 →
        shouldTrigger (("funding_btc", now) :: s.engine.last_trigger_time) now₂
          "funding_btc" = false)) ∧
    ((m.stablecoin_delta.getD 0 ≥ 1000000000 ∧
        shouldTrigger s.engine.last_trigger_time now "stablecoin_issuance" = true) →
      check_stablecoin_triggers w now m s = .error ("OSError",
        ⟨⟨s.engine.last_allocation,
          ("stablecoin_issuance", now) :: s.engine.last_trigger_time⟩,
         ⟨stablecoinMessage (m.stablecoin_delta.getD 0) :: s.fx.notifications,
          s.fx.journal⟩⟩) ∧
      (∀ now₂, now₂ - now < cooldown_hours * 3600 →
        shouldTrigger (("stablecoin_issuance", now) :: s.engine.last_trigger_time)
          now₂ "stablecoin_issuance" = false)) := by
  refine ⟨fun hc => ⟨?_, ?_⟩, fun hc => ⟨?_, ?_⟩, fun hc => ⟨?_, ?_⟩⟩
  · dsimp only [check_rotation_triggers]
    rw [if_pos hc, fireAction_err _ _ _ _ _ _ hj]
    rfl
  · intro now₂ hlt
    exact shouldTrigger_false_of _ _ now _ (by rw [getTime_cons, if_pos rfl]) hlt
  · dsimp only [check_funding_triggers]
    rw [if_pos hc, fireAction_err _ _ _ _ _ _ hj]
    rfl
  · intro now₂ hlt
    exact shouldTrigger_false_of _ _ now _ (by rw [getTime_cons, if_pos rfl]) hlt
  · dsimp only [check_stablecoin_triggers]
    rw [if_pos hc, fireAction_err _ _ _ _ _ _ hj]
    rfl
  · intro now₂ hlt
    exact shouldTrigger_false_of _ _ now _ (by rw [getTime_cons, if_pos rfl]) hlt

/-- C10 witness: after the journal-raising rotation fire at 100000, the
rotation key is still cooled one second before the window closes. -/
theorem record_precedes_sinks_witness :
    shouldTrigger [("rotation", 100000)] 143199 "rotation" = false := by
  have h := (record_precedes_sinks ⟨true, false, true⟩ 100000
    { btc_dominance := some 55, alt_season_index := some 80 } initialSys rfl).1
    ⟨by norm_num [Option.getD_some], by norm_num [Option.getD_some],
     by norm_num [shouldTrigger, getTime, cooldown_hours, initialSys, initialEngine]⟩
  exact h.2 143199 (by norm_num [cooldown_hours])

theorem macroKey_ne (e : MacroEvent) (k : String)
    (hk : k.data.take 6 ≠ ['m', 'a', 'c', 'r', 'o', '_']) : macroKey e ≠ k := by
  intro hc
  apply hk
  rw [← hc]
  show ("macro_" ++ e.name).data.take 6 = _
  rw [String.data_append]
  rw [show (6 : ℕ) = "macro_".data.length from rfl, List.take_left]

theorem rotation_run1 (w : World) (now : ℚ) (m : Metrics) (s : Sys)
    (hj : w.journalRaises = false) (h43 : cooldown_hours * 3600 ≤ now)
    (hfresh : getTime s.engine.last_trigger_time "rotation" = 0) :
    ∃ r s', check_rotation_triggers w now m s = .ok (r, s') ∧
      s'.engine.last_allocation = s.engine.last_allocation ∧
      (∀ k, k ≠ "rotation" →
        getTime s'.engine.last_trigger_time k = getTime s.engine.last_trigger_time k) ∧
      ((m.btc_dominance.getD 60 < 60 ∧ m.alt_season_index.getD 50 > 50) →
        getTime s'.engine.last_trigger_time "rotation" = now) := by
  have hsh : shouldTrigger s.engine.last_trigger_time now "rotation" = true :=
    shouldTrigger_true_of _ _ _ _ hfresh (by linarith)
  rw [check_rotation_spec w now m s hj]
  by_cases hc : m.btc_dominance.getD 60 < 60 ∧ m.alt_season_index.getD 50 > 50
  · rw [if_pos ⟨hc.1, hc.2, hsh⟩]
    refine ⟨_, _, rfl, rfl, ?_, ?_⟩
    · intro k hk
      rw [getTime_cons, if_neg (Ne.symm hk)]
    · intro _
      rw [getTime_cons, if_pos rfl]
  · rw [if_neg (fun hcon => hc ⟨hcon.1, hcon.2.1⟩)]
    exact ⟨_, _, rfl, rfl, fun k _ => rfl, fun hcc => absurd hcc hc⟩

theorem alt_run1 (w : World) (now : ℚ) (m : Metrics) (s : Sys)
    (hj : w.journalRaises = false) (h43 : cooldown_hours * 3600 ≤ now)
    (hfF : getTime s.engine.last_trigger_time "alt_season_full" = 0)
    (hfE : getTime s.engine.last_trigger_time "alt_season_end" = 0) :
    ∃ r s', check_alt_season_triggers w now m s = .ok (r, s') ∧
      s'.engine.last_allocation = s.engine.last_allocation ∧
      (∀ k, k ≠ "alt_season_full" → k ≠ "alt_season_end" →
        getTime s'.engine.last_trigger_time k = getTime s.engine.last_trigger_time k) ∧
      (m.alt_season_index.getD 50 ≥ 75 →
        getTime s'.engine.last_trigger_time "alt_season_full" = now) ∧
      (m.alt_season_index.getD 50 ≤ 25 →
        getTime s'.engine.last_trigger_time "alt_season_end" = now) := by
  have hshF : shouldTrigger s.engine.last_trigger_time now "alt_season_full" = true :=
    shouldTrigger_true_of _ _ _ _ hfF (by linarith)
  have hshE : shouldTrigger s.engine.last_trigger_time now "alt_season_end" = true :=
    shouldTrigger_true_of _ _ _ _ hfE (by linarith)
  rw [check_alt_season_spec w now m s hj]
  by_cases h75 : m.alt_season_index.getD 50 ≥ 75
  · rw [if_pos ⟨h75, hshF⟩]
    refine ⟨_, _, rfl, rfl, ?_, fun _ => ?_, fun h25 => absurd h75 (by linarith)⟩
    · intro k hk1 hk2
      rw [getTime_cons, if_neg (Ne.symm hk1)]
    · rw [getTime_cons, if_pos rfl]
  · rw [if_neg (fun hcon => h75 hcon.1)]
    by_cases h25 : m.alt_season_index.getD 50 ≤ 25
    · rw [if_pos ⟨h25, hshE⟩]
      refine ⟨_, _, rfl, rfl, ?_, fun h75' => absurd h75' h75, fun _ => ?_⟩
      · intro k hk1 hk2
        rw [getTime_cons, if_neg (Ne.symm hk2)]
      · rw [getTime_cons, if_pos rfl]
    · rw [if_neg (fun hcon => h25 hcon.1)]
      exact ⟨_, _, rfl, rfl, fun k _ _ => rfl,
        fun h75' => absurd h75' h75, fun h25' => absurd h25' h25⟩

theorem funding_run1 (w : World) (now : ℚ) (m : Metrics) (s : Sys)
    (hj : w.journalRaises = false) (h43 : cooldown_hours * 3600 ≤ now)
    (hfB : getTime s.engine.last_trigger_time "funding_btc" = 0)
    (hfH : getTime s.engine.last_trigger_time "funding_hype" = 0) :
    ∃ r s', check_funding_triggers w now m s = .ok (r, s') ∧
      s'.engine.last_allocation = s.engine.last_allocation ∧
      (∀ k, k ≠ "funding_btc" → k ≠ "funding_hype" →
        getTime s'.engine.last_trigger_time k = getTime s.engine.last_trigger_time k) ∧
      (|m.btc_funding_rate.getD 0| ≥ 0.10 →
        getTime s'.engine.last_trigger_time "funding_btc" = now) ∧
      (|m.hype_funding_rate.getD 0| ≥ 0.10 →
        getTime s'.engine.last_trigger_time "funding_hype" = now) := by
  have hshB : shouldTrigger s.engine.last_trigger_time now "funding_btc" = true :=
    shouldTrigger_true_of _ _ _ _ hfB (by linarith)
  have hshH : shouldTrigger s.engine.last_trigger_time now "funding_hype" = true :=
    shouldTrigger_true_of _ _ _ _ hfH (by linarith)
  rw [check_funding_spec w now m s hj]
  by_cases hB : |m.btc_funding_rate.getD 0| ≥ 0.10
  · rw [if_pos ⟨hB, hshB⟩]
    by_cases hH : |m.hype_funding_rate.getD 0| ≥ 0.10
    · rw [if_pos ⟨hH, hshH⟩]
      refine ⟨_, _, rfl, rfl, ?_, fun _ => ?_, fun _ => ?_⟩
      · intro k hk1 hk2
        rw [getTime_cons, if_neg (Ne.symm hk2), getTime_cons, if_neg (Ne.symm hk1)]
      · rw [getTime_cons, if_neg (by decide), getTime_cons, if_pos rfl]
      · rw [getTime_cons, if_pos rfl]
    · rw [if_neg (fun hcon => hH hcon.1)]
      refine ⟨_, _, rfl, rfl, ?_, fun _ => ?_, fun hH' => absurd hH' hH⟩
      · intro k hk1 _
        rw [getTime_cons, if_neg (Ne.symm hk1)]
      · rw [getTime_cons, if_pos rfl]
  · rw [if_neg (fun hcon => hB hcon.1)]
    by_cases hH : |m.hype_funding_rate.getD 0| ≥ 0.10
    · rw [if_pos ⟨hH, hshH⟩]
      refine ⟨_, _, rfl, rfl, ?_, fun hB' => absurd hB' hB, fun _ => ?_⟩
      · intro k _ hk2
        rw [getTime_cons, if_neg (Ne.symm hk2)]
      · rw [getTime_cons, if_pos rfl]
    · rw [if_neg (fun hcon => hH hcon.1)]
      exact ⟨_, _, rfl, rfl, fun k _ _ => rfl,
        fun hB' => absurd hB' hB, fun hH' => absurd hH' hH⟩

theorem stablecoin_run1 (w : World) (now : ℚ) (m : Metrics) (s : Sys)
    (hj : w.journalRaises = false) (h43 : cooldown_hours * 3600 ≤ now)
    (hfresh : getTime s.engine.last_trigger_time "stablecoin_issuance" = 0) :
    ∃ r s', check_stablecoin_triggers w now m s = .ok (r, s') ∧
      s'.engine.last_allocation = s.engine.last_allocation ∧
      (∀ k, k ≠ "stablecoin_issuance" →
        getTime s'.engine.last_trigger_time k = getTime s.engine.last_trigger_time k) ∧
      (m.stablecoin_delta.getD 0 ≥ 1000000000 →
        getTime s'.engine.last_trigger_time "stablecoin_issuance" = now) := by
  have hsh : shouldTrigger s.engine.last_trigger_time now "stablecoin_issuance" = true :=
    shouldTrigger_true_of _ _ _ _ hfresh (by linarith)
  rw [check_stablecoin_spec w now m s hj]
  by_cases hc : m.stablecoin_delta.getD 0 ≥ 1000000000
  · rw [if_pos ⟨hc, hsh⟩]
    refine ⟨_, _, rfl, rfl, ?_, ?_⟩
    · intro k hk
      rw [getTime_cons, if_neg (Ne.symm hk)]
    · intro _
      rw [getTime_cons, if_pos rfl]
  · rw [if_neg (fun hcon => hc hcon.1)]
    exact ⟨_, _, rfl, rfl, fun k _ => rfl, fun hcc => absurd hcc hc⟩

theorem macro_run1 (w : World) (now : ℚ) (m : Metrics) (s : Sys)
    (hj : w.journalRaises = false) (h43 : cooldown_hours * 3600 ≤ now)
    (hm : m.macro_events = [] ∨ ∃ e, m.macro_events = [e])
    (hfresh : ∀ e ∈ m.macro_events,
      getTime s.engine.last_trigger_time (macroKey e) = 0) :
    ∃ r s', check_macro_triggers w now m s = .ok (r, s') ∧
      s'.engine.last_allocation = s.engine.last_allocation ∧
      (∀ k, (∀ e ∈ m.macro_events, k ≠ macroKey e) →
        getTime s'.engine.last_trigger_time k = getTime s.engine.last_trigger_time k) ∧
      (∀ e ∈ m.macro_events, macroWindow now e = true →
        getTime s'.engine.last_trigger_time (macroKey e) = now) := by
  rw [check_macro_spec w now m s hj]
  rcases hm with hm | ⟨e, hm⟩
  · rw [hm]
    rw [List.find?_nil]
    refine ⟨_, _, rfl, rfl, fun k _ => rfl, ?_⟩
    intro e he
    exact absurd he (List.not_mem_nil e)
  · have hfe : getTime s.engine.last_trigger_time (macroKey e) = 0 :=
      hfresh e (by rw [hm]; exact List.mem_cons_self e [])
    have hsh : shouldTrigger s.engine.last_trigger_time now (macroKey e) = true :=
      shouldTrigger_true_of _ _ _ _ hfe (by linarith)
    by_cases hwin : macroWindow now e = true
    · have hq : macroQualifies s.engine.last_trigger_time now e = true := by
        rw [macroQualifies, hwin, hsh]
        rfl
      rw [hm, List.find?_cons_of_pos _ hq]
      refine ⟨_, _, rfl, rfl, ?_, ?_⟩
      · intro k hk
        have hne := hk e (List.mem_cons_self e [])
        rw [getTime_cons, if_neg (Ne.symm hne)]
      · intro e' he' _
        have he'e : e' = e := by simpa using he'
        subst he'e
        rw [getTime_cons, if_pos rfl]
    · have hq : ¬ (macroQualifies s.engine.last_trigger_time now e = true) := by
        rw [macroQualifies, Bool.and_eq_true]
        rintro ⟨hw, -⟩
        exact hwin hw
      rw [hm, List.find?_cons_of_neg _ hq, List.find?_nil]
      refine ⟨_, _, rfl, rfl, fun k _ => rfl, ?_⟩
      intro e' he' hw'
      have he'e : e' = e := by simpa using he'
      subst he'e
      exact absurd hw' hwin

theorem rotation_run2 (w : World) (now : ℚ) (m : Metrics) (s : Sys)
    (hj : w.journalRaises = false)
    (hk : (m.btc_dominance.getD 60 < 60 ∧ m.alt_season_index.getD 50 > 50) →
      shouldTrigger s.engine.last_trigger_time now "rotation" = false) :
    check_rotation_triggers w now m s = .ok (none, s) := by
  rw [check_rotation_spec w now m s hj, if_neg]
  rintro ⟨h1, h2, h3⟩
  rw [hk ⟨h1, h2⟩] at h3
  cases h3

theorem alt_run2 (w : World) (now : ℚ) (m : Metrics) (s : Sys)
    (hj : w.journalRaises = false)
    (hkF : m.alt_season_index.getD 50 ≥ 75 →
      shouldTrigger s.engine.last_trigger_time now "alt_season_full" = false)
    (hkE : m.alt_season_index.getD 50 ≤ 25 →
      shouldTrigger s.engine.last_trigger_time now "alt_season_end" = false) :
    check_alt_season_triggers w now m s = .ok (none, s) := by
  have hA : ¬(m.alt_season_index.getD 50 ≥ 75 ∧
      shouldTrigger s.engine.last_trigger_time now "alt_season_full" = true) := by
    rintro ⟨h1, h2⟩
    rw [hkF h1] at h2
    cases h2
  have hB : ¬(m.alt_season_index.getD 50 ≤ 25 ∧
      shouldTrigger s.engine.last_trigger_time now "alt_season_end" = true) := by
    rintro ⟨h1, h2⟩
    rw [hkE h1] at h2
    cases h2
  rw [check_alt_season_spec w now m s hj, if_neg hA, if_neg hB]

theorem funding_run2 (w : World) (now : ℚ) (m : Metrics) (s : Sys)
    (hj : w.journalRaises = false)
    (hkB : |m.btc_funding_rate.getD 0| ≥ 0.10 →
      shouldTrigger s.engine.last_trigger_time now "funding_btc" = false)
    (hkH : |m.hype_funding_rate.getD 0| ≥ 0.10 →
      shouldTrigger s.engine.last_trigger_time now "funding_hype" = false) :
    check_funding_triggers w now m s = .ok (none, s) := by
  have hA : ¬(|m.btc_funding_rate.getD 0| ≥ 0.10 ∧
      shouldTrigger s.engine.last_trigger_time now "funding_btc" = true) := by
    rintro ⟨h1, h2⟩
    rw [hkB h1] at h2
    cases h2
  have hB : ¬(|m.hype_funding_rate.getD 0| ≥ 0.10 ∧
      shouldTrigger s.engine.last_trigger_time now "funding_hype" = true) := by
    rintro ⟨h1, h2⟩
    rw [hkH h1] at h2
    cases h2
  rw [check_funding_spec w now m s hj, if_neg hA, if_neg hB]

theorem stablecoin_run2 (w : World) (now : ℚ) (m : Metrics) (s : Sys)
    (hj : w.journalRaises = false)
    (hk : m.stablecoin_delta.getD 0 ≥ 1000000000 →
      shouldTrigger s.engine.last_trigger_time now "stablecoin_issuance" = false) :
    check_stablecoin_triggers w now m s = .ok (none, s) := by
  rw [check_stablecoin_spec w now m s hj, if_neg]
  rintro ⟨h1, h2⟩
  rw [hk h1] at h2
  cases h2

theorem macro_run2 (w : World) (now : ℚ) (m : Metrics) (s : Sys)
    (hj : w.journalRaises = false)
    (hm : m.macro_events = [] ∨ ∃ e, m.macro_events = [e])
    (hk : ∀ e ∈ m.macro_events, macroWindow now e = true →
      shouldTrigger s.engine.last_trigger_time now (macroKey e) = false) :
    check_macro_triggers w now m s = .ok (none, s) := by
  rw [check_macro_spec w now m s hj]
  rcases hm with hm | ⟨e, hm⟩
  · rw [hm, List.find?_nil]
  · have hq : ¬ (macroQualifies s.engine.last_trigger_time now e = true) := by
      rw [macroQualifies, Bool.and_eq_true]
      rintro ⟨hw, hs⟩
      rw [hk e (by rw [hm]; exact List.mem_cons_self e []) hw] at hs
      cases hs
    rw [hm, List.find?_cons_of_neg _ hq, List.find?_nil]

/-- C4 (amended): starting from a freshly constructed engine at an instant
at least 12 hours past the epoch, evaluate a snapshot and then re-evaluate
the identical snapshot before the 12-hour window elapses. All five trigger
category results of the second evaluation are absent (in particular those
that fired), the allocation is returned unchanged, the second evaluation
changes nothing at all — no allocation-update notification, no journal
row, no cooldown record — and every key recorded by the first evaluation
becomes eligible again once at least 12 hours have passed. The macro
category obeys this only when the snapshot carries at most one macro event
and no event is newly inside the 12-hour date window at the second
instant; with two qualifying events the evaluators fire different events
in consecutive cycles (see the counterexample). -/
theorem check_all_second_eval (w : World) (m : Metrics) (now₁ now₂ : ℚ)
    (hj : w.journalRaises = false)
    (h43 : cooldown_hours * 3600 ≤ now₁) (h12 : now₁ ≤ now₂)
    (hlt : now₂ < now₁ + cooldown_hours * 3600)
    (hm : m.macro_events = [] ∨ ∃ e, m.macro_events = [e])
    (hwin : ∀ e ∈ m.macro_events, macroWindow now₂ e = true →
      macroWindow now₁ e = true) :
    ∃ r1 s1, check_all_triggers w now₁ m initialSys = .ok (r1, s1) ∧
      check_all_triggers w now₂ m s1 =
        .ok (⟨none, none, none, none, none, r1.allocation⟩, s1) ∧
      r1.allocation = calculate_allocation m ∧
      (∀ key, getTime s1.engine.last_trigger_time key = now₁ →
        ∀ now₃, now₁ + cooldown_hours * 3600 ≤ now₃ →
          shouldTrigger s1.engine.last_trigger_time now₃ key = true) := by
  have hg0 : ∀ k : String, getTime initialSys.engine.last_trigger_time k = 0 :=
    fun k => rfl
  obtain ⟨r1, sA, e1, a1, f1, g1⟩ := rotation_run1 w now₁ m initialSys hj h43 (hg0 _)
  obtain ⟨r2, sB, e2, a2, f2, gF2, gE2⟩ := alt_run1 w now₁ m sA hj h43
    (by rw [f1 _ (by decide)]; exact hg0 _)
    (by rw [f1 _ (by decide)]; exact hg0 _)
  obtain ⟨r3, sC, e3, a3, f3, gB3, gH3⟩ := funding_run1 w now₁ m sB hj h43
    (by rw [f2 _ (by decide) (by decide), f1 _ (by decide)]; exact hg0 _)
    (by rw [f2 _ (by decide) (by decide), f1 _ (by decide)]; exact hg0 _)
  obtain ⟨r4, sD, e4, a4, f4, g4⟩ := stablecoin_run1 w now₁ m sC hj h43
    (by rw [f3 _ (by decide) (by decide), f2 _ (by decide) (by decide),
          f1 _ (by decide)]
        exact hg0 _)
  obtain ⟨r5, sE, e5, a5, f5, g5⟩ := macro_run1 w now₁ m sD hj h43 hm
    (by intro e he
        rw [f4 _ (macroKey_ne e _ (by decide)),
          f3 _ (macroKey_ne e _ (by decide)) (macroKey_ne e _ (by decide)),
          f2 _ (macroKey_ne e _ (by decide)) (macroKey_ne e _ (by decide)),
          f1 _ (macroKey_ne e _ (by decide))]
        exact hg0 _)
  have hrun1 : runCategories w now₁ m initialSys = .ok ((r1, r2, r3, r4, r5), sE) := by
    unfold runCategories
    rw [e1]
    dsimp only
    rw [e2]
    dsimp only
    rw [e3]
    dsimp only
    rw [e4]
    dsimp only
    rw [e5]
  have hE0 : sE.engine.last_allocation = none := by
    rw [a5, a4, a3, a2, a1]
    rfl
  have hall1 : check_all_triggers w now₁ m initialSys =
      .ok (⟨r1, r2, r3, r4, r5, calculate_allocation m⟩,
        ⟨⟨some (calculate_allocation m), sE.engine.last_trigger_time⟩, sE.fx⟩) := by
    unfold check_all_triggers
    rw [hrun1]
    dsimp only
    rw [allocationStep_none w m sE hE0]
  set s1 : Sys :=
    ⟨⟨some (calculate_allocation m), sE.engine.last_trigger_time⟩, sE.fx⟩ with hs1def
  have hts : s1.engine.last_trigger_time = sE.engine.last_trigger_time := rfl
  have kRot : (m.btc_dominance.getD 60 < 60 ∧ m.alt_season_index.getD 50 > 50) →
      getTime s1.engine.last_trigger_time "rotation" = now₁ := by
    intro hc
    rw [hts, f5 _ (fun e _ => (macroKey_ne e _ (by decide)).symm), f4 _ (by decide),
      f3 _ (by decide) (by decide), f2 _ (by decide) (by decide)]
    exact g1 hc
  have kAltF : m.alt_season_index.getD 50 ≥ 75 →
      getTime s1.engine.last_trigger_time "alt_season_full" = now₁ := by
    intro hc
    rw [hts, f5 _ (fun e _ => (macroKey_ne e _ (by decide)).symm), f4 _ (by decide),
      f3 _ (by decide) (by decide)]
    exact gF2 hc
  have kAltE : m.alt_season_index.getD 50 ≤ 25 →
      getTime s1.engine.last_trigger_time "alt_season_end" = now₁ := by
    intro hc
    rw [hts, f5 _ (fun e _ => (macroKey_ne e _ (by decide)).symm), f4 _ (by decide),
      f3 _ (by decide) (by decide)]
    exact gE2 hc
  have kFB : |m.btc_funding_rate.getD 0| ≥ 0.10 →
      getTime s1.engine.last_trigger_time "funding_btc" = now₁ := by
    intro hc
    rw [hts, f5 _ (fun e _ => (macroKey_ne e _ (by decide)).symm), f4 _ (by decide)]
    exact gB3 hc
  have kFH : |m.hype_funding_rate.getD 0| ≥ 0.10 →
      getTime s1.engine.last_trigger_time "funding_hype" = now₁ := by
    intro hc
    rw [hts, f5 _ (fun e _ => (macroKey_ne e _ (by decide)).symm), f4 _ (by decide)]
    exact gH3 hc
  have kStable : m.stablecoin_delta.getD 0 ≥ 1000000000 →
      getTime s1.engine.last_trigger_time "stablecoin_issuance" = now₁ := by
    intro hc
    rw [hts, f5 _ (fun e _ => (macroKey_ne e _ (by decide)).symm)]
    exact g4 hc
  have kMacro : ∀ e ∈ m.macro_events, macroWindow now₁ e = true →
      getTime s1.engine.last_trigger_time (macroKey e) = now₁ := by
    intro e he hw
    rw [hts]
    exact g5 e he hw
  have hcool : now₂ - now₁ < cooldown_hours * 3600 := by linarith
  have her2 := rotation_run2 w now₂ m s1 hj
    (fun hc => shouldTrigger_false_of _ _ now₁ _ (kRot hc) hcool)
  have hea2 := alt_run2 w now₂ m s1 hj
    (fun hc => shouldTrigger_false_of _ _ now₁ _ (kAltF hc) hcool)
    (fun hc => shouldTrigger_false_of _ _ now₁ _ (kAltE hc) hcool)
  have hef2 := funding_run2 w now₂ m s1 hj
    (fun hc => shouldTrigger_false_of _ _ now₁ _ (kFB hc) hcool)
    (fun hc => shouldTrigger_false_of _ _ now₁ _ (kFH hc) hcool)
  have hes2 := stablecoin_run2 w now₂ m s1 hj
    (fun hc => shouldTrigger_false_of _ _ now₁ _ (kStable hc) hcool)
  have hem2 := macro_run2 w now₂ m s1 hj hm
    (fun e he hw => shouldTrigger_false_of _ _ now₁ _
      (kMacro e he (hwin e he hw)) hcool)
  have hrun2 : runCategories w now₂ m s1 = .ok ((none, none, none, none, none), s1) := by
    unfold runCategories
    rw [her2]
    dsimp only
    rw [hea2]
    dsimp only
    rw [hef2]
    dsimp only
    rw [hes2]
    dsimp only
    rw [hem2]
  have hs1a : s1.engine.last_allocation = some (calculate_allocation m) := rfl
  have hall2 : check_all_triggers w now₂ m s1 =
      .ok (⟨none, none, none, none, none, calculate_allocation m⟩, s1) := by
    unfold check_all_triggers
    rw [hrun2]
    dsimp only
    rw [allocationStep_same w m s1 (calculate_allocation m) hs1a rfl]
  refine ⟨⟨r1, r2, r3, r4, r5, calculate_allocation m⟩, s1, hall1, hall2, rfl, ?_⟩
  intro key hkey now₃ h3
  exact shouldTrigger_true_of _ _ now₁ _ hkey (by linarith)

theorem getTime_nil (n : String) : getTime [] n = 0 := rfl

/-- C4 counterexample: a snapshot carrying two macro events both dated at
the evaluation instant. The first evaluation (fresh engine, instant
100000) fires the macro category on CPI; the immediate second evaluation
with the identical snapshot — zero seconds later, well inside the 12-hour
window — fires the macro category again, on FOMC, because the per-event
cooldown key macro_CPI does not cool macro_FOMC and the loop returns the
first qualifying event. The macro category fired in the first cycle yet
its result in the second cycle is not absent, contradicting the claim. -/
theorem second_eval_macro_refire :
    check_all_triggers ⟨true, false, false⟩ 100000
      { macro_events := [⟨"CPI", some 100000⟩, ⟨"FOMC", some 100000⟩] } initialSys =
      .ok (⟨none, none, none, none, some (macroMessage ⟨"CPI", some 100000⟩),
            (0.60, 0.35, 0.05)⟩,
        ⟨⟨some (0.60, 0.35, 0.05), [(macroKey ⟨"CPI", some 100000⟩, 100000)]⟩,
         ⟨[macroMessage ⟨"CPI", some 100000⟩],
          [⟨"CASH", 0, "Macro in play: CPI", "📅"⟩]⟩⟩) ∧
    check_all_triggers ⟨true, false, false⟩ 100000
      { macro_events := [⟨"CPI", some 100000⟩, ⟨"FOMC", some 100000⟩] }
      ⟨⟨some (0.60, 0.35, 0.05), [(macroKey ⟨"CPI", some 100000⟩, 100000)]⟩,
       ⟨[macroMessage ⟨"CPI", some 100000⟩],
        [⟨"CASH", 0, "Macro in play: CPI", "📅"⟩]⟩⟩ =
      .ok (⟨none, none, none, none, some (macroMessage ⟨"FOMC", some 100000⟩),
            (0.60, 0.35, 0.05)⟩,
        ⟨⟨some (0.60, 0.35, 0.05),
          [(macroKey ⟨"FOMC", some 100000⟩, 100000),
           (macroKey ⟨"CPI", some 100000⟩, 100000)]⟩,
         ⟨[macroMessage ⟨"FOMC", some 100000⟩, macroMessage ⟨"CPI", some 100000⟩],
          [⟨"CASH", 0, "Macro in play: FOMC", "📅"⟩,
           ⟨"CASH", 0, "Macro in play: CPI", "📅"⟩]⟩⟩) := by
  have hca : calculate_allocation
      { macro_events := [⟨"CPI", some 100000⟩, ⟨"FOMC", some 100000⟩] } =
      (0.60, 0.35, 0.05) := by
    norm_num [calculate_allocation]
  constructor
  · have he1 : check_rotation_triggers ⟨true, false, false⟩ 100000
        { macro_events := [⟨"CPI", some 100000⟩, ⟨"FOMC", some 100000⟩] }
        initialSys = .ok (none, initialSys) := by
      rw [check_rotation_spec _ _ _ _ rfl, if_neg]
      rintro ⟨h, -⟩
      norm_num at h
    have he2 : check_alt_season_triggers ⟨true, false, false⟩ 100000
        { macro_events := [⟨"CPI", some 100000⟩, ⟨"FOMC", some 100000⟩] }
        initialSys = .ok (none, initialSys) := by
      rw [check_alt_season_spec _ _ _ _ rfl, if_neg, if_neg]
      · rintro ⟨h, -⟩
        norm_num at h
      · rintro ⟨h, -⟩
        norm_num at h
    have he3 : check_funding_triggers ⟨true, false, false⟩ 100000
        { macro_events := [⟨"CPI", some 100000⟩, ⟨"FOMC", some 100000⟩] }
        initialSys = .ok (none, initialSys) := by
      rw [check_funding_spec _ _ _ _ rfl, if_neg, if_neg]
      · rintro ⟨h, -⟩
        norm_num at h
      · rintro ⟨h, -⟩
        norm_num at h
    have he4 : check_stablecoin_triggers ⟨true, false, false⟩ 100000
        { macro_events := [⟨"CPI", some 100000⟩, ⟨"FOMC", some 100000⟩] }
        initialSys = .ok (none, initialSys) := by
      rw [check_stablecoin_spec _ _ _ _ rfl, if_neg]
      rintro ⟨h, -⟩
      norm_num at h
    have hqA : macroQualifies initialSys.engine.last_trigger_time 100000
        ⟨"CPI", some 100000⟩ = true := by
      norm_num [macroQualifies, macroWindow, shouldTrigger, getTime_nil,
        cooldown_hours, initialSys, initialEngine]
    have he5 : check_macro_triggers ⟨true, false, false⟩ 100000
        { macro_events := [⟨"CPI", some 100000⟩, ⟨"FOMC", some 100000⟩] }
        initialSys = .ok (some (macroMessage ⟨"CPI", some 100000⟩),
          ⟨⟨none, [(macroKey ⟨"CPI", some 100000⟩, 100000)]⟩,
           ⟨[macroMessage ⟨"CPI", some 100000⟩],
            [⟨"CASH", 0, "Macro in play: CPI", "📅"⟩]⟩⟩) := by
      rw [check_macro_spec _ _ _ _ rfl, List.find?_cons_of_pos _ hqA]
      rfl
    have hrun : runCategories ⟨true, false, false⟩ 100000
        { macro_events := [⟨"CPI", some 100000⟩, ⟨"FOMC", some 100000⟩] }
        initialSys = .ok ((none, none, none, none,
          some (macroMessage ⟨"CPI", some 100000⟩)),
          ⟨⟨none, [(macroKey ⟨"CPI", some 100000⟩, 100000)]⟩,
           ⟨[macroMessage ⟨"CPI", some 100000⟩],
            [⟨"CASH", 0, "Macro in play: CPI", "📅"⟩]⟩⟩) := by
      unfold runCategories
      rw [he1]
      dsimp only
      rw [he2]
      dsimp only
      rw [he3]
      dsimp only
      rw [he4]
      dsimp only
      rw [he5]
    unfold check_all_triggers
    rw [hrun]
    dsimp only
    rw [allocationStep_none _ _ _ rfl, hca]
  · have he1 : check_rotation_triggers ⟨true, false, false⟩ 100000
        { macro_events := [⟨"CPI", some 100000⟩, ⟨"FOMC", some 100000⟩] }
        ⟨⟨some (0.60, 0.35, 0.05), [(macroKey ⟨"CPI", some 100000⟩, 100000)]⟩,
         ⟨[macroMessage ⟨"CPI", some 100000⟩],
          [⟨"CASH", 0, "Macro in play: CPI", "📅"⟩]⟩⟩ =
        .ok (none, ⟨⟨some (0.60, 0.35, 0.05),
            [(macroKey ⟨"CPI", some 100000⟩, 100000)]⟩,
          ⟨[macroMessage ⟨"CPI", some 100000⟩],
           [⟨"CASH", 0, "Macro in play: CPI", "📅"⟩]⟩⟩) := by
      rw [check_rotation_spec _ _ _ _ rfl, if_neg]
      rintro ⟨h, -⟩
      norm_num at h
    have he2 : check_alt_season_triggers ⟨true, false, false⟩ 100000
        { macro_events := [⟨"CPI", some 100000⟩, ⟨"FOMC", some 100000⟩] }
        ⟨⟨some (0.60, 0.35, 0.05), [(macroKey ⟨"CPI", some 100000⟩, 100000)]⟩,
         ⟨[macroMessage ⟨"CPI", some 100000⟩],
          [⟨"CASH", 0, "Macro in play: CPI", "📅"⟩]⟩⟩ =
        .ok (none, ⟨⟨some (0.60, 0.35, 0.05),
            [(macroKey ⟨"CPI", some 100000⟩, 100000)]⟩,
          ⟨[macroMessage ⟨"CPI", some 100000⟩],
           [⟨"CASH", 0, "Macro in play: CPI", "📅"⟩]⟩⟩) := by
      rw [check_alt_season_spec _ _ _ _ rfl, if_neg, if_neg]
      · rintro ⟨h, -⟩
        norm_num at h
      · rintro ⟨h, -⟩
        norm_num at h
    have he3 : check_funding_triggers ⟨true, false, false⟩ 100000
        { macro_events := [⟨"CPI", some 100000⟩, ⟨"FOMC", some 100000⟩] }
        ⟨⟨some (0.60, 0.35, 0.05), [(macroKey ⟨"CPI", some 100000⟩, 100000)]⟩,
         ⟨[macroMessage ⟨"CPI", some 100000⟩],
          [⟨"CASH", 0, "Macro in play: CPI", "📅"⟩]⟩⟩ =
        .ok (none, ⟨⟨some (0.60, 0.35, 0.05),
            [(macroKey ⟨"CPI", some 100000⟩, 100000)]⟩,
          ⟨[macroMessage ⟨"CPI", some 100000⟩],
           [⟨"CASH", 0, "Macro in play: CPI", "📅"⟩]⟩⟩) := by
      rw [check_funding_spec _ _ _ _ rfl, if_neg, if_neg]
      · rintro ⟨h, -⟩
        norm_num at h
      · rintro ⟨h, -⟩
        norm_num at h
    have he4 : check_stablecoin_triggers ⟨true, false, false⟩ 100000
        { macro_events := [⟨"CPI", some 100000⟩, ⟨"FOMC", some 100000⟩] }
        ⟨⟨some (0.60, 0.35, 0.05), [(macroKey ⟨"CPI", some 100000⟩, 100000)]⟩,
         ⟨[macroMessage ⟨"CPI", some 100000⟩],
          [⟨"CASH", 0, "Macro in play: CPI", "📅"⟩]⟩⟩ =
        .ok (none, ⟨⟨some (0.60, 0.35, 0.05),
            [(macroKey ⟨"CPI", some 100000⟩, 100000)]⟩,
          ⟨[macroMessage ⟨"CPI", some 100000⟩],
           [⟨"CASH", 0, "Macro in play: CPI", "📅"⟩]⟩⟩) := by
      rw [check_stablecoin_spec _ _ _ _ rfl, if_neg]
      rintro ⟨h, -⟩
      norm_num at h
    have hqA : ¬ (macroQualifies [(macroKey ⟨"CPI", some 100000⟩, 100000)] 100000
        ⟨"CPI", some 100000⟩ = true) := by
      norm_num [macroQualifies, macroWindow, shouldTrigger, getTime_cons,
        getTime_nil, cooldown_hours]
    have hqB : macroQualifies [(macroKey ⟨"CPI", some 100000⟩, 100000)] 100000
        ⟨"FOMC", some 100000⟩ = true := by
      norm_num [macroQualifies, macroWindow, shouldTrigger, getTime_cons,
        getTime_nil, cooldown_hours, macroKey]
      rw [if_neg (by decide)]
      norm_num
    have he5 : check_macro_triggers ⟨true, false, false⟩ 100000
        { macro_events := [⟨"CPI", some 100000⟩, ⟨"FOMC", some 100000⟩] }
        ⟨⟨some (0.60, 0.35, 0.05), [(macroKey ⟨"CPI", some 100000⟩, 100000)]⟩,
         ⟨[macroMessage ⟨"CPI", some 100000⟩],
          [⟨"CASH", 0, "Macro in play: CPI", "📅"⟩]⟩⟩ =
        .ok (some (macroMessage ⟨"FOMC", some 100000⟩),
          ⟨⟨some (0.60, 0.35, 0.05),
            [(macroKey ⟨"FOMC", some 100000⟩, 100000),
             (macroKey ⟨"CPI", some 100000⟩, 100000)]⟩,
           ⟨[macroMessage ⟨"FOMC", some 100000⟩, macroMessage ⟨"CPI", some 100000⟩],
            [⟨"CASH", 0, "Macro in play: FOMC", "📅"⟩,
             ⟨"CASH", 0, "Macro in play: CPI", "📅"⟩]⟩⟩) := by
      rw [check_macro_spec _ _ _ _ rfl, List.find?_cons_of_neg _ hqA,
        List.find?_cons_of_pos _ hqB]
      rfl
    unfold check_all_triggers runCategories
    rw [he1]
    dsimp only
    rw [he2]
    dsimp only
    rw [he3]
    dsimp only
    rw [he4]
    dsimp only
    rw [he5]
    dsimp only
    rw [allocationStep_same _ _ _ (0.60, 0.35, 0.05) rfl hca.symm, hca]

/-- C4 witness: a rotation-and-alt-season-firing snapshot evaluated twice
at the same instant from a fresh engine; the hypotheses of the amended
theorem hold and the first cycle completes. -/
theorem check_all_second_eval_witness :
    (check_all_triggers ⟨true, false, false⟩ 100000
      { btc_dominance := some 55, alt_season_index := some 80 }
      initialSys).isOk = true := by
  obtain ⟨r1, s1, h1, -⟩ := check_all_second_eval ⟨true, false, false⟩
    { btc_dominance := some 55, alt_season_index := some 80 } 100000 100000 rfl
    (by norm_num [cooldown_hours]) le_rfl (by norm_num [cooldown_hours])
    (Or.inl rfl) (fun e he => absurd he (List.not_mem_nil e))
  rw [h1]
  rfl
